import Mathlib

/-!
# Post-processing pass chain of `tuwien-artr-a4`

A shallow embedding of the command recording done by the post-processing
invokees of assignment 4 (`ambient_occlusion`, `reflections`, `tone_mapping`,
`anti_aliasing`, `transfer_to_swapchain`).  Each `render()` is embedded as a
pure function from the members it reads to the members it writes and to the
list of commands it records into its command buffer, in recording order.

Conventions of the embedding:

* An image (view) is identified by the member that holds it; the members of one
  pass are distinct images, as they are in `assignment4::initialize`.
* `a | b >> c | d` of Auto-Vk denotes the dependency from the stage (access)
  set `{a, b}` to the set `{c, d}`; sets are embedded as lists in source order.
* `std::format("name {}", mPingPong)` is embedded as the pair of the name and
  the formatted integer.
* `frame_id_t` is `int64_t`; frame ids are non-negative and far from the
  bounds, so they are embedded as `Int`.  Image extents are `uint32_t` and are
  embedded as `Nat` with the wrap-around written out.
-/

namespace FloatingIslands

/-! ## Vocabulary of the recorded commands -/

/-- Pipeline stages used in the barriers (`avk::stage`). -/
inductive Stage
  | none
  | compute_shader
  | transfer
  | copy
  | blit
  | color_attachment_output
  | ray_tracing_shader
  | early_fragment_tests
  | late_fragment_tests
  | fragment_shader
  deriving DecidableEq, Repr

/-- Memory access types used in the barriers (`avk::access`). -/
inductive Access
  | none
  | shader_read
  | shader_write
  | shader_sampled_read
  | shader_storage_write
  | transfer_read
  | transfer_write
  | color_attachment_write
  | depth_stencil_attachment_read
  | depth_stencil_attachment_write
  deriving DecidableEq, Repr

/-- Image layouts (`avk::layout`). -/
inductive Layout
  | undefined
  | general
  | shader_read_only_optimal
  | read_only_optimal
  | transfer_src
  | transfer_dst
  | color_attachment_optimal
  | depth_stencil_attachment_optimal
  deriving DecidableEq, Repr

/-- The label of a timing interval: `std::format("name {}", mPingPong)`. -/
structure TimingLabel where
  name : String
  pingPong : Int
  deriving DecidableEq, Repr

/-- One entry of a descriptor set passed to `bind_descriptors`. -/
inductive Binding (ι : Type)
  | sampled_image (set binding : Nat) (img : ι) (declared : Layout)
  | storage_image (set binding : Nat) (img : ι) (declared : Layout)
  | resource (set binding : Nat) (member : String)
  deriving DecidableEq, Repr

/-- The commands recorded into a command buffer, over the images `ι` of a pass. -/
inductive Cmd (ι : Type)
  | record_timing_interval_start (label : TimingLabel)
  | record_timing_interval_end (label : TimingLabel)
  | global_memory_barrier (srcStages dstStages : List Stage) (srcAccess dstAccess : List Access)
  | image_memory_barrier (img : ι) (srcStages dstStages : List Stage)
      (srcAccess dstAccess : List Access) (transition : Option (Layout × Layout))
  | bind_pipeline (pipeline : String)
  | bind_descriptors (bindings : List (Binding ι))
  | push_constants (pipeline : String)
  | dispatch (x y z : Nat)
  | trace_rays (w h d : Nat)
  | copy_image_to_another (src : ι) (srcLayout : Layout) (dst : ι) (dstLayout : Layout)
  | blit_image (src : ι) (srcLayout : Layout) (dst : ι) (dstLayout : Layout)
  | generate_mip_maps (img : ι) (old new : Layout)
  deriving DecidableEq, Repr

/-- The 32-bit group count `(w + 15u) / 16u`. -/
def groupCount (w : Nat) : Nat := ((w + 15) % 2 ^ 32) / 16

/-- A compute dispatch or a ray-tracing launch. -/
def Cmd.isDispatch {ι : Type} : Cmd ι → Bool
  | .dispatch _ _ _ => true
  | .trace_rays _ _ _ => true
  | _ => false

/-- Source and destination of a transfer command (copy or blit). -/
def Cmd.transfer? {ι : Type} : Cmd ι → Option (ι × ι)
  | .copy_image_to_another src _ dst _ => some (src, dst)
  | .blit_image src _ dst _ => some (src, dst)
  | _ => none

/-- The transfers (copies and blits) of a command list, as (source, destination). -/
def transfers {ι : Type} (cmds : List (Cmd ι)) : List (ι × ι) :=
  cmds.filterMap Cmd.transfer?

/-- The dispatches of a command list. -/
def dispatches {ι : Type} (cmds : List (Cmd ι)) : List (Cmd ι) :=
  cmds.filter Cmd.isDispatch

/-- The images bound as storage images in a descriptor set. -/
def storageImages {ι : Type} (bs : List (Binding ι)) : List ι :=
  bs.filterMap fun b => match b with
    | .storage_image _ _ img _ => some img
    | _ => none

/-- The images bound as sampled images in a descriptor set. -/
def sampledImages {ι : Type} (bs : List (Binding ι)) : List ι :=
  bs.filterMap fun b => match b with
    | .sampled_image _ _ img _ => some img
    | _ => none

/-- The images written by the dispatches, copies and blits of a command list, in
order: a dispatch writes the storage images of the descriptor set bound at that
point, a transfer writes its destination.  `bound` is the descriptor set bound
before the first command. -/
def writesFrom {ι : Type} : List (Binding ι) → List (Cmd ι) → List ι
  | _, [] => []
  | _, .bind_descriptors bs :: rest => writesFrom bs rest
  | bound, .dispatch _ _ _ :: rest => storageImages bound ++ writesFrom bound rest
  | bound, .trace_rays _ _ _ :: rest => storageImages bound ++ writesFrom bound rest
  | bound, .copy_image_to_another _ _ dst _ :: rest => dst :: writesFrom bound rest
  | bound, .blit_image _ _ dst _ :: rest => dst :: writesFrom bound rest
  | bound, _ :: rest => writesFrom bound rest

/-- The images written by the dispatches, copies and blits of a freshly begun
command buffer. -/
def writes {ι : Type} (cmds : List (Cmd ι)) : List ι := writesFrom [] cmds

/-- A command list ends with a global memory barrier whose destination stages
include both `compute_shader` and `transfer`. -/
def EndsWithBarrierToComputeAndTransfer {ι : Type} (cmds : List (Cmd ι)) : Prop :=
  ∃ srcStages dstStages srcAccess dstAccess,
    cmds.getLast? = some (Cmd.global_memory_barrier srcStages dstStages srcAccess dstAccess)
    ∧ Stage.compute_shader ∈ dstStages ∧ Stage.transfer ∈ dstStages

/-- The number of transfers (copies and blits) of a command list whose
destination is `dst`. -/
def transfersInto {ι : Type} [DecidableEq ι] (cmds : List (Cmd ι)) (dst : ι) : Nat :=
  ((transfers cmds).filter fun t => decide (t.2 = dst)).length

/-! ## Layouts and contents of images along a command list -/

/-- The layout of every image after one command.  A layout transition
`old >> new` leaves the image in `new`; `same img j` tells whether the view `j`
belongs to the image of `img`. -/
def Cmd.applyLayout {ι : Type} (same : ι → ι → Bool) (cur : ι → Layout) : Cmd ι → ι → Layout
  | .image_memory_barrier img _ _ _ _ (some (_, new)) => fun j => if same img j then new else cur j
  | .generate_mip_maps img _ new => fun j => if same img j then new else cur j
  | _ => cur

/-- The layout of every image after a command list, from the layouts on entry. -/
def layoutAfter {ι : Type} (same : ι → ι → Bool) (cmds : List (Cmd ι)) (entry : ι → Layout) :
    ι → Layout :=
  cmds.foldl (Cmd.applyLayout same) entry

/-- Every view is an image of its own. -/
def sameView {ι : Type} [DecidableEq ι] (a b : ι) : Bool := decide (a = b)

/-- The contents of every image after a command list, images being values of
`α` and copies and blits being assignments.  A dispatch assigns to every storage
image of the bound descriptor set the value `shade pipeline inputs old`, where
`inputs` are the contents of the sampled images in binding order and `old` is
the previous content of the storage image; `shade` is the shader, left
uninterpreted.  Barriers, timestamps and push constants leave the contents as
they are.  Mip-map generation is not interpreted: the command lists run through
`execFrom` contain none. -/
def execFrom {ι α : Type} [DecidableEq ι] (shade : String → List α → α → α) :
    String → List (Binding ι) → List (Cmd ι) → (ι → α) → ι → α
  | _, _, [], σ => σ
  | _, bound, .bind_pipeline p :: rest, σ => execFrom shade p bound rest σ
  | p, _, .bind_descriptors bs :: rest, σ => execFrom shade p bs rest σ
  | p, bound, .dispatch _ _ _ :: rest, σ =>
    execFrom shade p bound rest
      (fun j => if j ∈ storageImages bound then
        shade p ((sampledImages bound).map σ) (σ j) else σ j)
  | p, bound, .trace_rays _ _ _ :: rest, σ =>
    execFrom shade p bound rest
      (fun j => if j ∈ storageImages bound then
        shade p ((sampledImages bound).map σ) (σ j) else σ j)
  | p, bound, .copy_image_to_another src _ dst _ :: rest, σ =>
    execFrom shade p bound rest (fun j => if j = dst then σ src else σ j)
  | p, bound, .blit_image src _ dst _ :: rest, σ =>
    execFrom shade p bound rest (fun j => if j = dst then σ src else σ j)
  | p, bound, _ :: rest, σ => execFrom shade p bound rest σ

/-- The contents after a freshly begun command buffer. -/
def exec {ι α : Type} [DecidableEq ι] (shade : String → List α → α → α)
    (cmds : List (Cmd ι)) (σ : ι → α) : ι → α :=
  execFrom shade "" [] cmds σ


/-! ## `anti_aliasing` -/

/-- The images of `anti_aliasing`, by member. -/
inductive TaaImage
  | mSourceColorImageView
  | mSourceDepthImageView
  | mDestinationImageView
  | mHistoryColorImageView
  | mHistoryDepthImageView
  deriving DecidableEq, Repr

/-- The members of `anti_aliasing` that `render()` reads or writes, each with
its default member initialiser; `width`, `height` are the extent of the image
of `mDestinationImageView`. -/
structure anti_aliasing where
  mTaaEnabled : Bool := true
  mPingPong : Int := 1
  mHistoryCreatedFromFrameId : Int := 0
  width : Nat
  height : Nat
  deriving DecidableEq, Repr

namespace anti_aliasing

open TaaImage Cmd Binding in
/-- The commands of `copy_depth_image_into_history_image`. -/
def copy_depth_image_into_history_image : List (Cmd TaaImage) :=
  [ image_memory_barrier mSourceDepthImageView [Stage.compute_shader] [Stage.copy]
      [Access.none] [Access.transfer_read]
      (some (Layout.shader_read_only_optimal, Layout.transfer_src)),
    image_memory_barrier mHistoryDepthImageView [Stage.compute_shader] [Stage.copy]
      [Access.none] [Access.transfer_write] Option.none,
    copy_image_to_another mSourceDepthImageView Layout.transfer_src
      mHistoryDepthImageView Layout.general,
    image_memory_barrier mSourceDepthImageView [Stage.copy]
      [Stage.early_fragment_tests, Stage.late_fragment_tests]
      [Access.none] [Access.depth_stencil_attachment_read]
      (some (Layout.transfer_src, Layout.shader_read_only_optimal)) ]

open TaaImage Cmd Binding in
/-- The commands of `copy_color_image_into_history_image`. -/
def copy_color_image_into_history_image : List (Cmd TaaImage) :=
  [ image_memory_barrier mDestinationImageView [Stage.compute_shader, Stage.copy] [Stage.copy]
      [Access.shader_storage_write, Access.transfer_write] [Access.transfer_read] Option.none,
    image_memory_barrier mHistoryColorImageView [Stage.compute_shader] [Stage.copy]
      [Access.none] [Access.transfer_write] Option.none,
    copy_image_to_another mDestinationImageView Layout.general
      mHistoryColorImageView Layout.general ]

/-- The local `historyIsValid` of `render()`:
`mHistoryCreatedFromFrameId == lastFrameId` with `lastFrameId = frameId - 1`. -/
def historyIsValid (s : anti_aliasing) (frameId : Int) : Bool :=
  s.mHistoryCreatedFromFrameId == frameId - 1

open TaaImage Cmd Binding in
/-- The TAA branch taken when the history is valid: barrier, bind, dispatch. -/
def taaDispatch (w h : Nat) : List (Cmd TaaImage) :=
  [ global_memory_barrier [Stage.transfer] [Stage.compute_shader]
      [Access.transfer_write] [Access.shader_read],
    bind_pipeline "mTaaPipeline",
    bind_descriptors
      [ resource 0 0 "mSampler",
        sampled_image 0 1 mSourceColorImageView Layout.general,
        sampled_image 0 2 mSourceDepthImageView Layout.shader_read_only_optimal,
        sampled_image 0 3 mHistoryColorImageView Layout.general,
        sampled_image 0 4 mHistoryDepthImageView Layout.general,
        storage_image 0 5 mDestinationImageView Layout.general,
        resource 1 0 "mMatricesBuffer" ],
    push_constants "mTaaPipeline",
    dispatch (groupCount w) (groupCount h) 1 ]

open TaaImage Cmd Binding in
/-- The commands recorded by the lambda of `render()`, given the members after
the ping-pong flip and the captured `historyIsValid`. -/
def recorded (s : anti_aliasing) (valid : Bool) : List (Cmd TaaImage) :=
  (if s.mTaaEnabled then
    [record_timing_interval_start ⟨"TAA", s.mPingPong⟩]
    ++ (if valid then taaDispatch s.width s.height
        else [copy_image_to_another mSourceColorImageView Layout.general
                mDestinationImageView Layout.general])
    ++ copy_depth_image_into_history_image
    ++ copy_color_image_into_history_image
    ++ [record_timing_interval_end ⟨"TAA", s.mPingPong⟩]
  else
    [copy_image_to_another mSourceColorImageView Layout.general
      mDestinationImageView Layout.general])
  ++ [global_memory_barrier [Stage.compute_shader, Stage.transfer]
        [Stage.compute_shader, Stage.transfer]
        [Access.shader_storage_write, Access.transfer_write]
        [Access.shader_read, Access.transfer_read]]

/-- The member updates of `render()` for frame `frameId`: the ping-pong index is
flipped, and with TAA enabled `mHistoryCreatedFromFrameId` becomes `frameId`. -/
def render (s : anti_aliasing) (frameId : Int) : anti_aliasing :=
  { s with
    mPingPong := 1 - s.mPingPong
    mHistoryCreatedFromFrameId :=
      if s.mTaaEnabled then frameId else s.mHistoryCreatedFromFrameId }

/-- The commands recorded by `render()` for frame `frameId`. -/
def renderCommands (s : anti_aliasing) (frameId : Int) : List (Cmd TaaImage) :=
  recorded { s with mPingPong := 1 - s.mPingPong } (s.historyIsValid frameId)

/-- The member updates of `config()`: the three image views are replaced (here:
the extent of the new destination image), the two history images are created
anew; no other member is assigned. -/
def config (s : anti_aliasing) (w h : Nat) : anti_aliasing :=
  { s with width := w, height := h }

end anti_aliasing

/-- What happens between two frames and in a frame, as far as `anti_aliasing`
is concerned: the swapchain-changed handler calls `config()`, the "enabled"
checkbox of the settings window assigns `mTaaEnabled`, and the composition
calls `render()` once per frame. -/
inductive TaaEvent
  | config (w h : Nat)
  | frame (taaEnabled : Bool)
  deriving DecidableEq, Repr

/-- One record per rendered frame. -/
structure TaaFrame where
  frameId : Int
  taaEnabled : Bool
  historyIsValid : Bool
  commands : List (Cmd TaaImage)
  deriving DecidableEq, Repr

/-- Runs a sequence of events; frames get the consecutive ids `frameId`,
`frameId + 1`, ... -/
def runTaa : anti_aliasing → Int → List TaaEvent → List TaaFrame
  | _, _, [] => []
  | s, frameId, .config w h :: rest => runTaa (s.config w h) frameId rest
  | s, frameId, .frame b :: rest =>
    let s1 := { s with mTaaEnabled := b }
    { frameId := frameId, taaEnabled := b, historyIsValid := s1.historyIsValid frameId,
      commands := s1.renderCommands frameId }
      :: runTaa (s1.render frameId) (frameId + 1) rest

/-- The state after running a sequence of events. -/
def runTaaState : anti_aliasing → Int → List TaaEvent → anti_aliasing × Int
  | s, frameId, [] => (s, frameId)
  | s, frameId, .config w h :: rest => runTaaState (s.config w h) frameId rest
  | s, frameId, .frame b :: rest =>
    runTaaState (anti_aliasing.render { s with mTaaEnabled := b } frameId) (frameId + 1) rest

/-! ## `ambient_occlusion` -/

/-- The images of `ambient_occlusion`, by member. -/
inductive AoImage
  | mSrcDepth
  | mSrcUvNrm
  | mSrcColor
  | mDstResults
  | mIntermediateImage
  deriving DecidableEq, Repr

/-- The members of `ambient_occlusion` that `render()` reads or writes, with
their default member initialisers; `width`, `height` are the extent of the image
of `mDstResults`. -/
structure ambient_occlusion where
  mSsaoEnabled : Bool := true
  mApplyOcclusionFactors : Int := 1
  mBlurOcclusionFactors : Int := 0
  mPingPong : Int := 1
  width : Nat
  height : Nat
  deriving DecidableEq, Repr

namespace ambient_occlusion

open AoImage Cmd Binding in
/-- The commands recorded when SSAO is enabled, given the members after the
ping-pong flip. -/
def ssaoCommands (s : ambient_occlusion) : List (Cmd AoImage) :=
  [ record_timing_interval_start ⟨"ssao", s.mPingPong⟩,
    bind_pipeline "mOcclusionFactorsPipeline",
    bind_descriptors
      [ sampled_image 0 0 mSrcDepth Layout.shader_read_only_optimal,
        sampled_image 0 1 mSrcUvNrm Layout.shader_read_only_optimal,
        storage_image 0 2 mIntermediateImage Layout.general,
        resource 1 0 "mUniformsBuffer",
        resource 2 0 "mRandomSamplesBuffer",
        resource 3 0 "mNoiseBuffer" ],
    push_constants "mOcclusionFactorsPipeline",
    dispatch (groupCount s.width) (groupCount s.height) 1 ]
  ++ (if s.mBlurOcclusionFactors ≠ 0 then
      [ global_memory_barrier [Stage.compute_shader] [Stage.compute_shader]
          [Access.shader_storage_write] [Access.shader_read],
        bind_pipeline "mBlurOcclusionFactorsPipeline",
        bind_descriptors
          [ sampled_image 0 0 mIntermediateImage Layout.general,
            sampled_image 0 1 mSrcDepth Layout.shader_read_only_optimal,
            storage_image 0 2 mIntermediateImage Layout.general ],
        push_constants "mBlurOcclusionFactorsPipeline",
        dispatch (groupCount s.width) (groupCount s.height) 1 ]
    else [])
  ++ (if s.mApplyOcclusionFactors ≠ 0 then
      [ global_memory_barrier [Stage.compute_shader] [Stage.compute_shader]
          [Access.shader_storage_write] [Access.shader_read],
        bind_pipeline "mApplyOcclusionFactorsPipeline",
        bind_descriptors
          [ sampled_image 0 0 mSrcColor Layout.read_only_optimal,
            sampled_image 0 1 mIntermediateImage Layout.general,
            storage_image 0 2 mDstResults Layout.general ],
        dispatch (groupCount s.width) (groupCount s.height) 1 ]
    else
      [ global_memory_barrier [Stage.compute_shader] [Stage.copy]
          [Access.shader_storage_write] [Access.transfer_read],
        copy_image_to_another mIntermediateImage Layout.general mDstResults Layout.general ])
  ++ [record_timing_interval_end ⟨"ssao", s.mPingPong⟩]

open AoImage Cmd Binding in
/-- The commands recorded when SSAO is disabled: blit the source color. -/
def blitCommands : List (Cmd AoImage) :=
  [ image_memory_barrier mSrcColor [Stage.color_attachment_output, Stage.compute_shader]
      [Stage.blit] [Access.color_attachment_write, Access.shader_storage_write]
      [Access.transfer_read] (some (Layout.shader_read_only_optimal, Layout.transfer_src)),
    blit_image mSrcColor Layout.transfer_src mDstResults Layout.general,
    image_memory_barrier mSrcColor [Stage.blit] [Stage.compute_shader, Stage.transfer]
      [Access.none] [Access.none] (some (Layout.transfer_src, Layout.shader_read_only_optimal)) ]

/-- The member updates of `render()`: the ping-pong index is flipped inside the
branch taken when SSAO is enabled. -/
def render (s : ambient_occlusion) : ambient_occlusion :=
  if s.mSsaoEnabled then { s with mPingPong := 1 - s.mPingPong } else s

open Cmd in
/-- The commands recorded by `render()`. -/
def renderCommands (s : ambient_occlusion) : List (Cmd AoImage) :=
  (if s.mSsaoEnabled then ssaoCommands s.render else blitCommands)
  ++ [global_memory_barrier [Stage.compute_shader, Stage.transfer]
        [Stage.compute_shader, Stage.transfer]
        [Access.shader_storage_write, Access.transfer_write]
        [Access.shader_read, Access.transfer_read]]

/-- The layouts in which `config()` expects the images. -/
def entryLayout : AoImage → Layout
  | .mSrcDepth => Layout.shader_read_only_optimal
  | .mSrcUvNrm => Layout.shader_read_only_optimal
  | .mSrcColor => Layout.shader_read_only_optimal
  | .mDstResults => Layout.general
  | .mIntermediateImage => Layout.general

end ambient_occlusion

/-! ## `reflections` -/

/-- The images of `reflections`, by member. -/
inductive ReflImage
  | mSrcDepth
  | mSrcUvNrm
  | mSrcMatId
  | mSrcColor
  | mDstResults
  | mIntermediateImage
  deriving DecidableEq, Repr

/-- The members of `reflections` that `render()` reads or writes, each with
its default member initialiser; `mRayTracingPipeline` stands for
`mRayTracingPipeline.has_value()`, `width`, `height` are the extent of the image
of `mDstResults`. -/
structure reflections where
  mReflectionsEnabled : Bool := true
  mApplyReflections : Int := 1
  mRtxOn : Option Int := none
  mRayTracingPipeline : Bool := false
  mPingPong : Int := 1
  width : Nat
  height : Nat
  deriving DecidableEq, Repr

namespace reflections

open ReflImage Cmd Binding in
/-- The first step, screen-space variant. -/
def ssrCommands (s : reflections) : List (Cmd ReflImage) :=
  [ bind_pipeline "mGenerateReflectionsPipeline",
    bind_descriptors
      [ sampled_image 0 0 mSrcDepth Layout.shader_read_only_optimal,
        sampled_image 0 1 mSrcUvNrm Layout.shader_read_only_optimal,
        sampled_image 0 2 mSrcMatId Layout.shader_read_only_optimal,
        sampled_image 0 3 mSrcColor Layout.general,
        resource 1 0 "mUniformsBuffer",
        storage_image 2 0 mIntermediateImage Layout.general ],
    push_constants "mGenerateReflectionsPipeline",
    dispatch (groupCount s.width) (groupCount s.height) 1 ]

open ReflImage Cmd Binding in
/-- The first step, ray-traced variant; nothing is recorded without a pipeline. -/
def rtxCommands (s : reflections) : List (Cmd ReflImage) :=
  if s.mRayTracingPipeline then
    [ bind_pipeline "mRayTracingPipeline",
      bind_descriptors
        [ resource 0 0 "mMaterials",
          resource 0 1 "mImageSamplerDescriptorInfos",
          resource 1 0 "mUniformsBuffer",
          resource 1 1 "mLightsBuffer",
          sampled_image 2 0 mSrcDepth Layout.shader_read_only_optimal,
          sampled_image 2 1 mSrcUvNrm Layout.shader_read_only_optimal,
          sampled_image 2 2 mSrcMatId Layout.shader_read_only_optimal,
          sampled_image 2 3 mSrcColor Layout.general,
          storage_image 3 0 mIntermediateImage Layout.general,
          resource 4 0 "mIndexBufferUniformTexelBufferViews",
          resource 4 1 "mNormalBufferUniformTexelBufferViews",
          resource 5 0 "mTopLevelAS" ],
      trace_rays s.width s.height 1 ]
  else []

/-- The local `srcStages`. -/
def srcStages (s : reflections) : Stage :=
  if s.mRtxOn.getD 0 = 1 then Stage.ray_tracing_shader else Stage.compute_shader

open ReflImage Cmd Binding in
/-- The commands recorded when reflections are enabled, given the members after
the ping-pong flip. -/
def enabledCommands (s : reflections) : List (Cmd ReflImage) :=
  [ record_timing_interval_start ⟨"reflections", s.mPingPong⟩,
    global_memory_barrier [Stage.color_attachment_output] [Stage.compute_shader]
      [Access.color_attachment_write] [Access.shader_sampled_read] ]
  ++ (if s.mRtxOn.getD 0 = 0 then ssrCommands s else rtxCommands s)
  ++ (if s.mApplyReflections = 1 then
      [ image_memory_barrier mIntermediateImage [s.srcStages] [Stage.compute_shader]
          [Access.shader_storage_write] [Access.shader_read] Option.none,
        bind_pipeline "mApplyReflectionsPipeline",
        bind_descriptors
          [ resource 0 0 "mMaterials",
            resource 0 1 "mImageSamplerDescriptorInfos",
            sampled_image 1 0 mSrcDepth Layout.shader_read_only_optimal,
            sampled_image 1 1 mSrcUvNrm Layout.shader_read_only_optimal,
            sampled_image 1 2 mSrcMatId Layout.shader_read_only_optimal,
            sampled_image 1 3 mSrcColor Layout.general,
            sampled_image 2 0 mIntermediateImage Layout.general,
            storage_image 2 1 mDstResults Layout.general ],
        dispatch (groupCount s.width) (groupCount s.height) 1 ]
    else
      [ image_memory_barrier mIntermediateImage [s.srcStages] [Stage.copy]
          [Access.shader_storage_write] [Access.transfer_read] Option.none,
        copy_image_to_another mIntermediateImage Layout.general mDstResults Layout.general ])
  ++ [record_timing_interval_end ⟨"reflections", s.mPingPong⟩]

/-- The member updates of `render()`: the ping-pong index is flipped inside the
branch taken when reflections are enabled. -/
def render (s : reflections) : reflections :=
  if s.mReflectionsEnabled then { s with mPingPong := 1 - s.mPingPong } else s

open ReflImage Cmd in
/-- The commands recorded by `render()`. -/
def renderCommands (s : reflections) : List (Cmd ReflImage) :=
  (if s.mReflectionsEnabled then enabledCommands s.render
   else [copy_image_to_another mSrcColor Layout.general mDstResults Layout.general])
  ++ [global_memory_barrier [Stage.compute_shader, Stage.transfer]
        [Stage.compute_shader, Stage.transfer]
        [Access.shader_storage_write, Access.transfer_write]
        [Access.shader_read, Access.transfer_read]]

/-- The layouts in which `config()` expects the images. -/
def entryLayout : ReflImage → Layout
  | .mSrcDepth => Layout.shader_read_only_optimal
  | .mSrcUvNrm => Layout.shader_read_only_optimal
  | .mSrcMatId => Layout.shader_read_only_optimal
  | .mSrcColor => Layout.general
  | .mDstResults => Layout.general
  | .mIntermediateImage => Layout.general

end reflections

/-! ## `tone_mapping` -/

/-- The image views of `tone_mapping`, by member; `mAvgLogLumLevels level` and
`mMaxLogLumLevels level` are the per-level views of the two luminance images. -/
inductive ToneImage
  | mSourceHdr
  | mDestinationLdr
  | mAvgLogLumLevels (level : Nat)
  | mMaxLogLumLevels (level : Nat)
  deriving DecidableEq, Repr

/-- Two views of `tone_mapping` belong to the same image. -/
def ToneImage.sameImage : ToneImage → ToneImage → Bool
  | .mSourceHdr, .mSourceHdr => true
  | .mDestinationLdr, .mDestinationLdr => true
  | .mAvgLogLumLevels _, .mAvgLogLumLevels _ => true
  | .mMaxLogLumLevels _, .mMaxLogLumLevels _ => true
  | _, _ => false

/-- The members of `tone_mapping` that `render()` reads or writes, each with
its default member initialiser; `levels` is the common size of
`mAvgLogLumLevels` and `mMaxLogLumLevels`, `width`, `height` are the extent of
the image of `mDestinationLdr`. -/
structure tone_mapping where
  mToneMappingEnabled : Bool := true
  mGradualAdaption : Bool := true
  mUseMax : Bool := true
  mPingPong : Int := 1
  levels : Nat
  width : Nat
  height : Nat
  deriving DecidableEq, Repr

namespace tone_mapping

open Cmd in
/-- The commands of `dispatch_and_sync_with_subsequent_compute(x, y, cb)`. -/
def dispatch_and_sync_with_subsequent_compute (x y : Nat) : List (Cmd ToneImage) :=
  [ dispatch (groupCount x) (groupCount y) 1,
    global_memory_barrier [Stage.compute_shader] [Stage.compute_shader]
      [Access.shader_storage_write] [Access.shader_read] ]

open ToneImage Cmd Binding in
/-- The loop `for (level = 1; level < mMaxLogLumLevels.size(); level++)`:
`remaining` iterations are left, starting at `level` with the current
`mipW`, `mipH`, which are halved in 32-bit arithmetic before use. -/
def maxLoop : (remaining : Nat) → (level mipW mipH : Nat) → List (Cmd ToneImage)
  | 0, _, _, _ => []
  | remaining + 1, level, mipW, mipH =>
    [ bind_descriptors
        [ sampled_image 0 0 (mMaxLogLumLevels (level - 1)) Layout.general,
          storage_image 0 1 (mMaxLogLumLevels level) Layout.general ] ]
    ++ dispatch_and_sync_with_subsequent_compute (max 1 (mipW / 2)) (max 1 (mipH / 2))
    ++ maxLoop remaining (level + 1) (mipW / 2) (mipH / 2)

/-- The member updates of `render()`: the ping-pong index is flipped. -/
def render (s : tone_mapping) : tone_mapping :=
  { s with mPingPong := 1 - s.mPingPong }

open ToneImage Cmd Binding in
/-- The commands recorded by the lambda of `render()`, given the members after
the ping-pong flip. -/
def recorded (s : tone_mapping) : List (Cmd ToneImage) :=
  [ record_timing_interval_start ⟨"tone mapping", s.mPingPong⟩,
    bind_pipeline "mToLogPipeline",
    bind_descriptors
      [ sampled_image 0 0 mSourceHdr Layout.general,
        storage_image 0 1 (mAvgLogLumLevels 0) Layout.general,
        storage_image 0 2 (mMaxLogLumLevels 0) Layout.general ],
    dispatch (groupCount s.width) (groupCount s.height) 1,
    global_memory_barrier [Stage.compute_shader] [Stage.transfer]
      [Access.shader_storage_write] [Access.transfer_read, Access.transfer_write],
    generate_mip_maps (mAvgLogLumLevels 0) Layout.general Layout.general,
    global_memory_barrier [Stage.transfer] [Stage.compute_shader]
      [Access.transfer_write] [Access.shader_sampled_read] ]
  ++ (if s.mUseMax then
      bind_pipeline "mMaxPipeline" :: maxLoop (s.levels - 1) 1 s.width s.height
    else [])
  ++ [ bind_pipeline "mUpdateLumBufferPipeline",
       bind_descriptors
         [ sampled_image 0 0 (mAvgLogLumLevels (s.levels - 1)) Layout.general,
           sampled_image 0 1 (mMaxLogLumLevels (s.levels - 1)) Layout.general,
           resource 1 0 "mLumBuffer" ],
       push_constants "mUpdateLumBufferPipeline" ]
  ++ dispatch_and_sync_with_subsequent_compute 1 1
  ++ [ bind_pipeline "mToneMappingPipeline",
       bind_descriptors
         [ sampled_image 0 0 mSourceHdr Layout.general,
           storage_image 0 1 mDestinationLdr Layout.general,
           resource 1 0 "mLumBuffer" ],
       push_constants "mToneMappingPipeline",
       dispatch (groupCount s.width) (groupCount s.height) 1,
       record_timing_interval_end ⟨"tone mapping", s.mPingPong⟩,
       global_memory_barrier [Stage.compute_shader] [Stage.compute_shader, Stage.transfer]
         [Access.shader_storage_write] [Access.shader_read, Access.transfer_read] ]

/-- The commands recorded by `render()`. -/
def renderCommands (s : tone_mapping) : List (Cmd ToneImage) :=
  recorded s.render

/-- The layouts in which `config()` expects or puts the images. -/
def entryLayout : ToneImage → Layout
  | _ => Layout.general

end tone_mapping

/-- The layouts in which `anti_aliasing::config()` expects or puts the images. -/
def anti_aliasing.entryLayout : TaaImage → Layout
  | .mSourceDepthImageView => Layout.shader_read_only_optimal
  | _ => Layout.general

/-! ## `transfer_to_swapchain` -/

/-- The enumeration `transfer_to_swapchain::transfer_type`. -/
inductive transfer_type
  | copy
  | blit
  deriving DecidableEq, Repr

/-- The structure `avk::layout::image_layout_transition`, written `mOld >> mNew`. -/
structure image_layout_transition where
  mOld : Layout
  mNew : Layout
  deriving DecidableEq, Repr

/-- The images of `transfer_to_swapchain`: its members and, for swapchain image
`i`, `backbuffer_at_index(i)->image_at(0)` and `->image_at(1)`. -/
inductive SwapImage
  | mSrcColor
  | mSrcDepth
  | mIntermediateColorImage
  | backbufferColor (i : Nat)
  | backbufferDepth (i : Nat)
  deriving DecidableEq, Repr

/-- The members of `transfer_to_swapchain` assigned by `config()`;
`mIntermediateColorImage` stands for `mIntermediateColorImage.has_value()`. -/
structure transfer_to_swapchain where
  mDepthTransferType : transfer_type
  mDepthImageLayouts : image_layout_transition
  mColorTransferType : transfer_type
  mColorImageLayouts : image_layout_transition
  mIntermediateColorImage : Bool
  mIntermediateColorTransferType : transfer_type
  mIntermediateColorImageLayouts : image_layout_transition
  deriving DecidableEq, Repr

namespace transfer_to_swapchain

/-- The expression `type == transfer_type::blit ? blit_image(...) : copy_image_to_another(...)`. -/
def transferCommand (type : transfer_type) (src : SwapImage) (srcLayout : Layout)
    (dst : SwapImage) (dstLayout : Layout) : Cmd SwapImage :=
  if type = transfer_type.blit then Cmd.blit_image src srcLayout dst dstLayout
  else Cmd.copy_image_to_another src srcLayout dst dstLayout

/-- The expression `mDepthTransferType == transfer_type::blit ? stage::blit : stage::copy`. -/
def depthStage (s : transfer_to_swapchain) : Stage :=
  if s.mDepthTransferType = transfer_type.blit then Stage.blit else Stage.copy

open SwapImage Cmd in
/-- The commands recorded into `mCommandBuffers[i]` by one iteration of the loop
of `generate_command_buffers()`. -/
def commandBuffer (s : transfer_to_swapchain) (i : Nat) : List (Cmd SwapImage) :=
  [ image_memory_barrier mSrcColor [Stage.color_attachment_output, Stage.compute_shader]
      [Stage.transfer] [Access.color_attachment_write, Access.shader_write]
      [Access.transfer_read] (some (s.mColorImageLayouts.mOld, Layout.transfer_src)),
    image_memory_barrier (backbufferColor i)
      [Stage.color_attachment_output, Stage.compute_shader] [Stage.transfer]
      [Access.color_attachment_write, Access.shader_write] [Access.transfer_write]
      (some (Layout.undefined, Layout.transfer_dst)),
    image_memory_barrier mSrcDepth [Stage.early_fragment_tests, Stage.late_fragment_tests]
      [s.depthStage] [Access.depth_stencil_attachment_write] [Access.transfer_read]
      (some (s.mDepthImageLayouts.mOld, Layout.transfer_src)),
    image_memory_barrier (backbufferDepth i)
      [Stage.color_attachment_output, Stage.compute_shader] [s.depthStage]
      [Access.color_attachment_write, Access.shader_write] [Access.transfer_write]
      (some (Layout.depth_stencil_attachment_optimal, Layout.transfer_dst)) ]
  ++ (if s.mIntermediateColorImage then
      [ image_memory_barrier SwapImage.mIntermediateColorImage
          [Stage.color_attachment_output, Stage.compute_shader] [Stage.transfer]
          [Access.color_attachment_write, Access.shader_write] [Access.transfer_write]
          (some (s.mIntermediateColorImageLayouts.mOld, Layout.general)),
        transferCommand s.mColorTransferType mSrcColor Layout.transfer_src
          SwapImage.mIntermediateColorImage Layout.general,
        image_memory_barrier SwapImage.mIntermediateColorImage [Stage.transfer] [Stage.transfer]
          [Access.transfer_write] [Access.transfer_read] Option.none,
        transferCommand s.mIntermediateColorTransferType
          SwapImage.mIntermediateColorImage Layout.general
          (backbufferColor i) Layout.transfer_dst ]
    else
      [ transferCommand s.mColorTransferType mSrcColor Layout.transfer_src
          (backbufferColor i) Layout.transfer_dst ])
  ++ [ transferCommand s.mDepthTransferType mSrcDepth Layout.transfer_src
         (backbufferDepth i) Layout.transfer_dst,
       image_memory_barrier mSrcColor [Stage.transfer] [Stage.fragment_shader]
         [Access.transfer_write] [Access.shader_sampled_read]
         (some (Layout.transfer_src, s.mColorImageLayouts.mNew)),
       image_memory_barrier (backbufferColor i) [Stage.transfer]
         [Stage.color_attachment_output] [Access.transfer_write]
         [Access.color_attachment_write]
         (some (Layout.transfer_dst, Layout.color_attachment_optimal)),
       image_memory_barrier mSrcDepth [s.depthStage] [Stage.fragment_shader]
         [Access.none] [Access.shader_sampled_read]
         (some (Layout.transfer_src, s.mDepthImageLayouts.mNew)),
       image_memory_barrier (backbufferDepth i) [s.depthStage]
         [Stage.early_fragment_tests, Stage.late_fragment_tests] [Access.transfer_write]
         [Access.depth_stencil_attachment_read, Access.depth_stencil_attachment_write]
         (some (Layout.transfer_dst, Layout.depth_stencil_attachment_optimal)),
       global_memory_barrier [Stage.transfer] [Stage.fragment_shader]
         [Access.transfer_write] [Access.shader_sampled_read] ]

/-- The result of `generate_command_buffers()`: one command buffer per swapchain image. -/
def generate_command_buffers (s : transfer_to_swapchain) (numSwapchainImages : Nat) :
    List (List (Cmd SwapImage)) :=
  (List.range numSwapchainImages).map s.commandBuffer

end transfer_to_swapchain

/-! ## Execution order and timing labels -/

/-- The method `ambient_occlusion::execution_order()`. -/
def ambient_occlusion.execution_order (_ : ambient_occlusion) : Int := 20

/-- The method `reflections::execution_order()`. -/
def reflections.execution_order (_ : reflections) : Int := 40

/-- The method `tone_mapping::execution_order()`. -/
def tone_mapping.execution_order (_ : tone_mapping) : Int := 60

/-- The method `anti_aliasing::execution_order()`. -/
def anti_aliasing.execution_order (_ : anti_aliasing) : Int := 80

/-- The method `transfer_to_swapchain::execution_order()`. -/
def transfer_to_swapchain.execution_order (_ : transfer_to_swapchain) : Int := 99

/-- The method `camera_presets::execution_order()` (`utils/camera_presets.hpp`);
it reads no member. -/
def camera_presets.execution_order : Int := 100

/-- The method `lights_editor::execution_order()` (`utils/lights_editor.hpp`);
it reads no member. -/
def lights_editor.execution_order : Int := 1000

/-- The label that `ambient_occlusion::duration()` passes to
`get_timing_interval_in_ms`; without SSAO it returns `0.0f` and queries nothing. -/
def ambient_occlusion.durationLabel (s : ambient_occlusion) : Option TimingLabel :=
  if s.mSsaoEnabled then some ⟨"ssao", s.mPingPong⟩ else none

/-- The label that `reflections::duration()` passes to `get_timing_interval_in_ms`;
without reflections it returns `0.0f` and queries nothing. -/
def reflections.durationLabel (s : reflections) : Option TimingLabel :=
  if s.mReflectionsEnabled then some ⟨"reflections", s.mPingPong⟩ else none

/-- The label that `tone_mapping::duration()` passes to `get_timing_interval_in_ms`. -/
def tone_mapping.durationLabel (s : tone_mapping) : Option TimingLabel :=
  some ⟨"tone mapping", s.mPingPong⟩

/-- The label that `anti_aliasing::duration()` passes to `get_timing_interval_in_ms`;
without TAA it returns `0.0f` and queries nothing. -/
def anti_aliasing.durationLabel (s : anti_aliasing) : Option TimingLabel :=
  if s.mTaaEnabled then some ⟨"TAA", s.mPingPong⟩ else none

/-- A command that records a timestamp. -/
def Cmd.isTiming {ι : Type} : Cmd ι → Bool
  | .record_timing_interval_start _ => true
  | .record_timing_interval_end _ => true
  | _ => false

/-- A command list records the effect of a pass inside the timing interval
`label`: it is the start timestamp of `label`, then the commands `effect`, which
record no timestamp, then the end timestamp of `label`, then commands that are
neither a dispatch nor a transfer nor a timestamp. -/
def TimedEffect {ι : Type} (label : TimingLabel) (effect : List (Cmd ι))
    (cmds : List (Cmd ι)) : Prop :=
  ∃ after : List (Cmd ι),
    cmds = Cmd.record_timing_interval_start label :: effect
      ++ Cmd.record_timing_interval_end label :: after
    ∧ effect.filter Cmd.isTiming = []
    ∧ dispatches after = [] ∧ transfers after = [] ∧ after.filter Cmd.isTiming = []

/-- Scans a command list for the end timestamp of `label`: no other timestamp
comes before it, and after it there is no dispatch, transfer or timestamp. -/
def closesInterval {ι : Type} (label : TimingLabel) : List (Cmd ι) → Bool
  | [] => false
  | .record_timing_interval_end l :: after =>
    decide (l = label)
      && after.all fun c => !c.isDispatch && c.transfer?.isNone && !c.isTiming
  | .record_timing_interval_start _ :: _ => false
  | _ :: rest => closesInterval label rest

/-- A command list starts with the start timestamp of `label` and is closed by
its end timestamp. -/
def timedBy {ι : Type} (label : TimingLabel) : List (Cmd ι) → Bool
  | .record_timing_interval_start l :: rest => decide (l = label) && closesInterval label rest
  | _ => false

/-! ## Declared layouts along a command list -/

/-- One use of a layout in a command: the image, the layout the command declares
for it, the layout the image is in at that point, and, for a layout transition,
the layout it is transitioned to. -/
structure LayoutUse (ι : Type) where
  img : ι
  declared : Layout
  actual : Layout
  transitionTo : Option Layout
  deriving DecidableEq, Repr

/-- The layouts declared by the entries of a descriptor set. -/
def bindingLayouts {ι : Type} (cur : ι → Layout) (bs : List (Binding ι)) : List (LayoutUse ι) :=
  bs.filterMap fun b => match b with
    | .sampled_image _ _ img declared => some ⟨img, declared, cur img, none⟩
    | .storage_image _ _ img declared => some ⟨img, declared, cur img, none⟩
    | .resource _ _ _ => none

/-- The layouts declared by one command, with the layouts `cur` at that point:
the old layout of a layout transition, the layouts of a descriptor set, the
source and destination layouts of a copy or blit, the old layout of a mip-map
generation. -/
def Cmd.layoutUses {ι : Type} (cur : ι → Layout) : Cmd ι → List (LayoutUse ι)
  | .image_memory_barrier img _ _ _ _ (some (old, new)) => [⟨img, old, cur img, some new⟩]
  | .bind_descriptors bs => bindingLayouts cur bs
  | .copy_image_to_another src srcLayout dst dstLayout =>
    [⟨src, srcLayout, cur src, none⟩, ⟨dst, dstLayout, cur dst, none⟩]
  | .blit_image src srcLayout dst dstLayout =>
    [⟨src, srcLayout, cur src, none⟩, ⟨dst, dstLayout, cur dst, none⟩]
  | .generate_mip_maps img old new => [⟨img, old, cur img, some new⟩]
  | _ => []

/-- All layout uses of a command list, in order, from the layouts on entry. -/
def layoutLog {ι : Type} (same : ι → ι → Bool) : List (Cmd ι) → (ι → Layout) → List (LayoutUse ι)
  | [], _ => []
  | c :: rest, cur => c.layoutUses cur ++ layoutLog same rest (Cmd.applyLayout same cur c)

/-- The layout that a layout name denotes on an image.  `layout::read_only_optimal`
is the generic read-only layout of Vulkan (synchronization2): on a colour image
it is the layout `shader_read_only_optimal`.  On a depth image it is a depth
read-only layout, which the sources never name, so it is left as it is there.
Every other layout of the sources denotes itself. -/
def Layout.resolve (isColor : Bool) : Layout → Layout
  | .read_only_optimal =>
    if isColor then Layout.shader_read_only_optimal else Layout.read_only_optimal
  | l => l

/-- The images of `ambient_occlusion` with a colour format: all but the depth
attachment bound as `mSrcDepth`. -/
def AoImage.isColor : AoImage → Bool
  | .mSrcDepth => false
  | _ => true

/-- The images of `reflections` with a colour format: all but the depth
attachment bound as `mSrcDepth`. -/
def ReflImage.isColor : ReflImage → Bool
  | .mSrcDepth => false
  | _ => true

/-- The images of `tone_mapping` all have a colour format. -/
def ToneImage.isColor : ToneImage → Bool
  | _ => true

/-- The images of `anti_aliasing` with a colour format: all but the source depth
and the history depth image. -/
def TaaImage.isColor : TaaImage → Bool
  | .mSourceDepthImageView => false
  | .mHistoryDepthImageView => false
  | _ => true

/-- The declared layout of a use denotes another layout than the one the image
is in. -/
def LayoutUse.mismatch {ι : Type} (isColor : ι → Bool) (u : LayoutUse ι) : Bool :=
  decide ((u.declared.resolve (isColor u.img)) ≠ (u.actual.resolve (isColor u.img)))

/-- The layout uses whose declared layout is not the layout the image is in. -/
def layoutMismatches {ι : Type} (same : ι → ι → Bool) (isColor : ι → Bool)
    (cmds : List (Cmd ι)) (entry : ι → Layout) : List (LayoutUse ι) :=
  (layoutLog same cmds entry).filter (LayoutUse.mismatch isColor)

/-- The layout transitions recorded for the image `img`, in order. -/
def transitionsOf {ι : Type} [DecidableEq ι] (same : ι → ι → Bool) (cmds : List (Cmd ι))
    (entry : ι → Layout) (img : ι) : List (LayoutUse ι) :=
  (layoutLog same cmds entry).filter fun u => decide (u.img = img) && u.transitionTo.isSome

/-- Every layout that a command declares, and every layout it transitions to,
is `l`. -/
def Cmd.declaresOnly {ι : Type} (l : Layout) : Cmd ι → Bool
  | .image_memory_barrier _ _ _ _ _ (some (old, new)) => decide (old = l) && decide (new = l)
  | .bind_descriptors bs => bs.all fun b => match b with
    | .sampled_image _ _ _ declared => decide (declared = l)
    | .storage_image _ _ _ declared => decide (declared = l)
    | .resource _ _ _ => true
  | .copy_image_to_another _ srcLayout _ dstLayout =>
    decide (srcLayout = l) && decide (dstLayout = l)
  | .blit_image _ srcLayout _ dstLayout => decide (srcLayout = l) && decide (dstLayout = l)
  | .generate_mip_maps _ old new => decide (old = l) && decide (new = l)
  | _ => true

/-! ## Timing intervals of `helpers` -/

/-- The value type of `helpers::sIntervals` without the query pool: the array
`timestamps` and the float `avgRendertime`, which is embedded as a rational. -/
structure TimingInterval where
  timestamps : Nat × Nat := (0, 0)
  avgRendertime : ℚ := 0
  deriving DecidableEq

/-- The map `helpers::sIntervals`, keyed by the label. -/
def Intervals : Type := TimingLabel → Option TimingInterval

namespace helpers

/-- The function `add_timing_interval_and_get_query_pool`, as far as the map is
concerned: an absent label is inserted with timestamps 0 and average `0.0f`. -/
def add_timing_interval_and_get_query_pool (sIntervals : Intervals) (aName : TimingLabel) :
    Intervals :=
  match sIntervals aName with
  | some _ => sIntervals
  | none => Function.update sIntervals aName (some {})

/-- The local `delta` of `get_timing_interval_in_ms`: the 32-bit difference
`timestamps[1] - timestamps[0]`, times `timestampPeriod`, divided by 1000000. -/
def timingDelta (timestamps : Nat × Nat) (timestampPeriod : ℚ) : ℚ :=
  (((timestamps.2 % 2 ^ 32 + 2 ^ 32 - timestamps.1 % 2 ^ 32) % 2 ^ 32 : Nat) : ℚ)
    * timestampPeriod / 1000000

/-- The function `get_timing_interval_in_ms`, over rationals; `queried` is what
`getQueryPoolResults` writes into `timestamps`.  It returns the map and the
returned value. -/
def get_timing_interval_in_ms (sIntervals : Intervals) (aName : TimingLabel)
    (queried : Nat × Nat) (timestampPeriod : ℚ) : Intervals × ℚ :=
  match sIntervals aName with
  | none => (sIntervals, 0)
  | some interval =>
    (Function.update sIntervals aName
        (some ⟨queried,
          interval.avgRendertime * (9 / 10) + timingDelta queried timestampPeriod * (1 / 10)⟩),
      interval.avgRendertime * (9 / 10) + timingDelta queried timestampPeriod * (1 / 10))

/-- Successive calls of `get_timing_interval_in_ms` for one label, one per
queried timestamp pair: the final map and the returned values in call order. -/
def timingCalls (aName : TimingLabel) (timestampPeriod : ℚ) :
    Intervals → List (Nat × Nat) → Intervals × List ℚ
  | sIntervals, [] => (sIntervals, [])
  | sIntervals, queried :: rest =>
    ((timingCalls aName timestampPeriod
        (get_timing_interval_in_ms sIntervals aName queried timestampPeriod).1 rest).1,
      (get_timing_interval_in_ms sIntervals aName queried timestampPeriod).2
        :: (timingCalls aName timestampPeriod
            (get_timing_interval_in_ms sIntervals aName queried timestampPeriod).1 rest).2)

end helpers

/-- The closed form of the exponential moving average after the samples `d`,
from the initial average `a0`:
`0.9^n * a0 + 0.1 * sum_{i<n} 0.9^(n-1-i) * d_i` with `n` the number of samples. -/
def emaClosedForm (a0 : ℚ) (d : List ℚ) : ℚ :=
  (9 / 10) ^ d.length * a0
    + (1 / 10) * ∑ i in Finset.range d.length, (9 / 10) ^ (d.length - 1 - i) * d.getD i 0

/-! ## Luminance level views of `tone_mapping` -/

/-- An image view onto one mip level of an image: `baseMipLevel` with level
count 1. -/
structure LevelView where
  image : Nat
  baseMipLevel : Nat
  deriving DecidableEq, Repr

/-- The members `mAvgLogLumLevels` and `mMaxLogLumLevels` of `tone_mapping`. -/
structure LuminanceLevels where
  mAvgLogLumLevels : List LevelView := []
  mMaxLogLumLevels : List LevelView := []
  deriving DecidableEq, Repr

/-- The loop `for (level = 0u; level < mipLevels; level++)` of `config()` and of
the swapchain-changed handler: one `push_back` per vector and level. -/
def LuminanceLevels.pushLevels (v : LuminanceLevels) (avgLumImg maxLumImg mipLevels : Nat) :
    LuminanceLevels :=
  (List.range mipLevels).foldl
    (fun v level =>
      { mAvgLogLumLevels := v.mAvgLogLumLevels ++ [⟨avgLumImg, level⟩]
        mMaxLogLumLevels := v.mMaxLogLumLevels ++ [⟨maxLumImg, level⟩] })
    v

/-- The effect of `tone_mapping::config()` on the two vectors: `avgLumImg` and
`maxLumImg` are the images it creates, with `mipLevels` levels each. -/
def tone_mapping.config (v : LuminanceLevels) (avgLumImg maxLumImg mipLevels : Nat) :
    LuminanceLevels :=
  v.pushLevels avgLumImg maxLumImg mipLevels

/-- The effect of the swapchain-changed handler installed by
`tone_mapping::initialize()` on the two vectors: both are cleared, then filled. -/
def tone_mapping.swapchain_changed (_ : LuminanceLevels) (avgLumImg maxLumImg mipLevels : Nat) :
    LuminanceLevels :=
  ({ mAvgLogLumLevels := [], mMaxLogLumLevels := [] } : LuminanceLevels).pushLevels
    avgLumImg maxLumImg mipLevels

/-- One image view per mip level of `image`, in level order. -/
def levelViews (image mipLevels : Nat) : List LevelView :=
  (List.range mipLevels).map fun level => ⟨image, level⟩

/-! ## Resource wiring of `assignment4` -/

/-- The role of an image in the chain: `gbuffer k` is
`mFramebuffer->image_views()[k]` (0 color, 1 depth, 2 uv and normal, 3 material
id), `hdr k` is `mStorageImageViewsHdr[k]`, `ldr k` is `mStorageImageViewsLdr[k]`,
`srgb` is `mImageViewSrgb`. -/
inductive Role
  | gbuffer (index : Nat)
  | hdr (index : Nat)
  | ldr (index : Nat)
  | srgb
  deriving DecidableEq, Repr

/-- The image arguments of `ambient_occlusion::config`. -/
structure AoConfig (ρ : Type) where
  aSourceColor : ρ
  aSourceDepth : ρ
  aSourceUvNormal : ρ
  aDestinationImageView : ρ
  deriving DecidableEq, Repr

/-- The image arguments of `reflections::config`. -/
structure ReflConfig (ρ : Type) where
  aSourceColor : ρ
  aSourceDepth : ρ
  aSourceUvNormal : ρ
  aSourceMatId : ρ
  aDestinationImageView : ρ
  deriving DecidableEq, Repr

/-- The image arguments of `tone_mapping::config`. -/
structure ToneConfig (ρ : Type) where
  aSourceHdr : ρ
  aDestinationLdr : ρ
  deriving DecidableEq, Repr

/-- The image arguments of `anti_aliasing::config`. -/
structure TaaConfig (ρ : Type) where
  aSourceColorImageView : ρ
  aSourceDepthImageView : ρ
  aDestinationImageView : ρ
  deriving DecidableEq, Repr

/-- The arguments of `transfer_to_swapchain::config` after the queue. -/
structure TransferConfig (ρ : Type) where
  aSourceDepth : ρ
  aDepthTransferType : transfer_type
  aDepthImageLayouts : image_layout_transition
  aSourceColor : ρ
  aColorTransferType : transfer_type
  aColorImageLayouts : image_layout_transition
  aIntermediateColorImage : Option (ρ × transfer_type × image_layout_transition)
  deriving DecidableEq, Repr

/-- The image bindings of the five passes of the chain. -/
structure ChainConfig (ρ : Type) where
  mAmbientOcclusion : AoConfig ρ
  mReflections : ReflConfig ρ
  mToneMapping : ToneConfig ρ
  mAntiAliasing : TaaConfig ρ
  mTransferToSwapchain : TransferConfig ρ
  deriving DecidableEq, Repr

/-- Replaces every image of the bindings by its image under `f`. -/
def ChainConfig.map {ρ σ : Type} (f : ρ → σ) (c : ChainConfig ρ) : ChainConfig σ where
  mAmbientOcclusion :=
    { aSourceColor := f c.mAmbientOcclusion.aSourceColor
      aSourceDepth := f c.mAmbientOcclusion.aSourceDepth
      aSourceUvNormal := f c.mAmbientOcclusion.aSourceUvNormal
      aDestinationImageView := f c.mAmbientOcclusion.aDestinationImageView }
  mReflections :=
    { aSourceColor := f c.mReflections.aSourceColor
      aSourceDepth := f c.mReflections.aSourceDepth
      aSourceUvNormal := f c.mReflections.aSourceUvNormal
      aSourceMatId := f c.mReflections.aSourceMatId
      aDestinationImageView := f c.mReflections.aDestinationImageView }
  mToneMapping :=
    { aSourceHdr := f c.mToneMapping.aSourceHdr
      aDestinationLdr := f c.mToneMapping.aDestinationLdr }
  mAntiAliasing :=
    { aSourceColorImageView := f c.mAntiAliasing.aSourceColorImageView
      aSourceDepthImageView := f c.mAntiAliasing.aSourceDepthImageView
      aDestinationImageView := f c.mAntiAliasing.aDestinationImageView }
  mTransferToSwapchain :=
    { aSourceDepth := f c.mTransferToSwapchain.aSourceDepth
      aDepthTransferType := c.mTransferToSwapchain.aDepthTransferType
      aDepthImageLayouts := c.mTransferToSwapchain.aDepthImageLayouts
      aSourceColor := f c.mTransferToSwapchain.aSourceColor
      aColorTransferType := c.mTransferToSwapchain.aColorTransferType
      aColorImageLayouts := c.mTransferToSwapchain.aColorImageLayouts
      aIntermediateColorImage :=
        c.mTransferToSwapchain.aIntermediateColorImage.map fun x => (f x.1, x.2) }

/-- An image view held by `assignment4` or by a pass: attachment `index` of the
framebuffer with handle `framebuffer`, or the storage image view with handle
`id`. -/
inductive ViewRef
  | attachment (framebuffer : Nat) (index : Nat)
  | view (id : Nat)
  deriving DecidableEq, Repr

/-- The sized resources of `assignment4` and the image views that the five
passes hold after their last `config()`. -/
structure assignment4 where
  mFramebuffer : Nat
  mStorageImageViewsHdr : Nat × Nat
  mStorageImageViewsLdr : Nat × Nat
  mImageViewSrgb : Nat
  passes : ChainConfig ViewRef
  deriving DecidableEq, Repr

namespace assignment4

/-- The `config()` calls at the end of `assignment4::initialize()`, by role. -/
def initialConfig : ChainConfig Role where
  mAmbientOcclusion :=
    { aSourceColor := Role.gbuffer 0
      aSourceDepth := Role.gbuffer 1
      aSourceUvNormal := Role.gbuffer 2
      aDestinationImageView := Role.hdr 0 }
  mReflections :=
    { aSourceColor := Role.hdr 0
      aSourceDepth := Role.gbuffer 1
      aSourceUvNormal := Role.gbuffer 2
      aSourceMatId := Role.gbuffer 3
      aDestinationImageView := Role.hdr 1 }
  mToneMapping :=
    { aSourceHdr := Role.hdr 1
      aDestinationLdr := Role.ldr 0 }
  mAntiAliasing :=
    { aSourceColorImageView := Role.ldr 0
      aSourceDepthImageView := Role.gbuffer 1
      aDestinationImageView := Role.ldr 1 }
  mTransferToSwapchain :=
    { aSourceDepth := Role.gbuffer 1
      aDepthTransferType := transfer_type.copy
      aDepthImageLayouts := ⟨Layout.shader_read_only_optimal, Layout.shader_read_only_optimal⟩
      aSourceColor := Role.ldr 1
      aColorTransferType := transfer_type.copy
      aColorImageLayouts := ⟨Layout.general, Layout.general⟩
      aIntermediateColorImage :=
        some (Role.srgb, transfer_type.blit, ⟨Layout.general, Layout.general⟩) }

/-- The `config()` calls of the swapchain-changed handler installed by
`assignment4::enable_the_updater()`, by role. -/
def handlerConfig : ChainConfig Role where
  mAmbientOcclusion :=
    { aSourceColor := Role.gbuffer 0
      aSourceDepth := Role.gbuffer 1
      aSourceUvNormal := Role.gbuffer 2
      aDestinationImageView := Role.hdr 0 }
  mReflections :=
    { aSourceColor := Role.hdr 0
      aSourceDepth := Role.gbuffer 1
      aSourceUvNormal := Role.gbuffer 2
      aSourceMatId := Role.gbuffer 3
      aDestinationImageView := Role.hdr 1 }
  mToneMapping :=
    { aSourceHdr := Role.hdr 1
      aDestinationLdr := Role.ldr 0 }
  mAntiAliasing :=
    { aSourceColorImageView := Role.ldr 0
      aSourceDepthImageView := Role.gbuffer 1
      aDestinationImageView := Role.ldr 1 }
  mTransferToSwapchain :=
    { aSourceDepth := Role.gbuffer 1
      aDepthTransferType := transfer_type.copy
      aDepthImageLayouts := ⟨Layout.shader_read_only_optimal, Layout.shader_read_only_optimal⟩
      aSourceColor := Role.ldr 1
      aColorTransferType := transfer_type.copy
      aColorImageLayouts := ⟨Layout.general, Layout.general⟩
      aIntermediateColorImage :=
        some (Role.srgb, transfer_type.blit, ⟨Layout.general, Layout.general⟩) }

/-- The image view that currently plays a role, from the resource members. -/
def resolveRole (mFramebuffer : Nat) (mStorageImageViewsHdr mStorageImageViewsLdr : Nat × Nat)
    (mImageViewSrgb : Nat) : Role → ViewRef
  | .gbuffer index => ViewRef.attachment mFramebuffer index
  | .hdr 0 => ViewRef.view mStorageImageViewsHdr.1
  | .hdr _ => ViewRef.view mStorageImageViewsHdr.2
  | .ldr 0 => ViewRef.view mStorageImageViewsLdr.1
  | .ldr _ => ViewRef.view mStorageImageViewsLdr.2
  | .srgb => ViewRef.view mImageViewSrgb

/-- The image view that currently plays a role in `s`. -/
def resolve (s : assignment4) : Role → ViewRef :=
  resolveRole s.mFramebuffer s.mStorageImageViewsHdr s.mStorageImageViewsLdr s.mImageViewSrgb

/-- The state after `assignment4::initialize()`: the created resources and the
passes configured with them. -/
def initialized (mFramebuffer : Nat) (mStorageImageViewsHdr mStorageImageViewsLdr : Nat × Nat)
    (mImageViewSrgb : Nat) : assignment4 where
  mFramebuffer := mFramebuffer
  mStorageImageViewsHdr := mStorageImageViewsHdr
  mStorageImageViewsLdr := mStorageImageViewsLdr
  mImageViewSrgb := mImageViewSrgb
  passes := initialConfig.map
    (resolveRole mFramebuffer mStorageImageViewsHdr mStorageImageViewsLdr mImageViewSrgb)

/-- The outcomes of the creations made by the swapchain-changed handler itself,
in the order of the handler: the new framebuffer, then per HDR index an image
and its view, then per LDR index an image and its view, then the sRGB image and
its view.  `none` is a creation that fails (the call throws); `some h` is the
handle of the created resource. -/
structure Creations where
  newFramebuffer : Option Nat
  hdrImage : Nat → Option Nat
  hdrView : Nat → Option Nat
  ldrImage : Nat → Option Nat
  ldrView : Nat → Option Nat
  srgbImage : Option Nat
  srgbView : Option Nat

/-- The loop `for (i = 0; i < views.size(); i++)` over a `std::array` of two
views: `views[i]` is assigned once its image and its view are created.  The
second component tells whether the loop completed; when a creation fails, the
assignments made before it stay. -/
def recreateViews (image view : Nat → Option Nat) (views : Nat × Nat) : (Nat × Nat) × Bool :=
  match image 0 with
  | none => (views, false)
  | some _ =>
    match view 0 with
    | none => (views, false)
    | some v0 =>
      match image 1 with
      | none => ((v0, views.2), false)
      | some _ =>
        match view 1 with
        | none => ((v0, views.2), false)
        | some v1 => ((v0, v1), true)

/-- The swapchain-changed handler installed by `enable_the_updater()`, as far
as the sized resources and the bindings of the passes are concerned.  The
second component tells whether the handler ran to its end; when a creation
fails, the handler is left at that point with the members as they are then. -/
def swapchain_changed (s : assignment4) (c : Creations) : assignment4 × Bool :=
  match c.newFramebuffer with
  | none => (s, false)
  | some newFramebuffer =>
    match recreateViews c.hdrImage c.hdrView s.mStorageImageViewsHdr with
    | (hdr, false) => ({ s with mStorageImageViewsHdr := hdr }, false)
    | (hdr, true) =>
      match recreateViews c.ldrImage c.ldrView s.mStorageImageViewsLdr with
      | (ldr, false) =>
        ({ s with mStorageImageViewsHdr := hdr, mStorageImageViewsLdr := ldr }, false)
      | (ldr, true) =>
        match c.srgbImage with
        | none =>
          ({ s with mStorageImageViewsHdr := hdr, mStorageImageViewsLdr := ldr }, false)
        | some _ =>
          match c.srgbView with
          | none =>
            ({ s with mStorageImageViewsHdr := hdr, mStorageImageViewsLdr := ldr }, false)
          | some srgb =>
            ({ mFramebuffer := newFramebuffer
               mStorageImageViewsHdr := hdr
               mStorageImageViewsLdr := ldr
               mImageViewSrgb := srgb
               passes := handlerConfig.map (resolveRole newFramebuffer hdr ldr srgb) }, true)

namespace Creations

end Creations

end assignment4

/-! ## Reads, writes and barriers along a command list -/

/-- A resource accessed by a command: an image view, a whole image (given by
one of its views), or a bound resource that is not an image (buffer, sampler,
acceleration structure), by member name. -/
inductive Res (ι : Type)
  | view (v : ι)
  | image (v : ι)
  | buffer (member : String)
  deriving DecidableEq, Repr

/-- Two resources overlap; `same a b` tells whether the views `a` and `b`
belong to the same image. -/
def Res.overlaps {ι : Type} [DecidableEq ι] (same : ι → ι → Bool) : Res ι → Res ι → Bool
  | .view a, .view b => decide (a = b)
  | .view a, .image b => same b a
  | .image a, .view b => same a b
  | .image a, .image b => same a b
  | .buffer m, .buffer n => decide (m = n)
  | _, _ => false

/-- The members bound as non-image resources in a descriptor set. -/
def boundResources {ι : Type} (bs : List (Binding ι)) : List String :=
  bs.filterMap fun b => match b with
    | .resource _ _ member => some member
    | _ => none

/-- The bound resources that a shader writes.  `mLumBuffer` is the storage
buffer that `update_lum_buffer.comp` updates; the other resources bound by the
four passes are uniform buffers, samplers, texel buffer views, the materials
and lights buffers and the acceleration structure, which are inputs. -/
def shaderWritten (member : String) : Bool := decide (member = "mLumBuffer")

/-- The resources read by a command, with the descriptor set bound at that
point: a dispatch reads every image and resource of the set, a transfer reads
its source, mip-map generation reads the image. -/
def readsOf {ι : Type} (bound : List (Binding ι)) : Cmd ι → List (Res ι)
  | .dispatch _ _ _ =>
    (sampledImages bound).map Res.view ++ (storageImages bound).map Res.view
      ++ (boundResources bound).map Res.buffer
  | .trace_rays _ _ _ =>
    (sampledImages bound).map Res.view ++ (storageImages bound).map Res.view
      ++ (boundResources bound).map Res.buffer
  | .copy_image_to_another src _ _ _ => [Res.view src]
  | .blit_image src _ _ _ => [Res.view src]
  | .generate_mip_maps img _ _ => [Res.image img]
  | _ => []

/-- The resources written by a command, with the descriptor set bound at that
point: a dispatch writes the storage images of the set and the bound resources
that a shader writes, a transfer writes its destination, mip-map generation
writes the image. -/
def writesOf {ι : Type} (bound : List (Binding ι)) : Cmd ι → List (Res ι)
  | .dispatch _ _ _ =>
    (storageImages bound).map Res.view
      ++ ((boundResources bound).filter shaderWritten).map Res.buffer
  | .trace_rays _ _ _ =>
    (storageImages bound).map Res.view
      ++ ((boundResources bound).filter shaderWritten).map Res.buffer
  | .copy_image_to_another _ _ dst _ => [Res.view dst]
  | .blit_image _ _ dst _ => [Res.view dst]
  | .generate_mip_maps img _ _ => [Res.image img]
  | _ => []

/-- A command is a memory barrier for the resource: a global memory barrier, or
an image memory barrier on the image of the resource. -/
def covers {ι : Type} (same : ι → ι → Bool) : Cmd ι → Res ι → Bool
  | .global_memory_barrier _ _ _ _, _ => true
  | .image_memory_barrier img _ _ _ _ _, .view v => same img v
  | .image_memory_barrier img _ _ _ _ _, .image v => same img v
  | _, _ => false

/-- A recorded command with the resources it reads and writes. -/
structure Step (ι : Type) where
  reads : List (Res ι)
  writes : List (Res ι)
  cmd : Cmd ι

/-- The commands of a list with their reads and writes; `bound` is the
descriptor set bound before the first command. -/
def stepsFrom {ι : Type} : List (Binding ι) → List (Cmd ι) → List (Step ι)
  | _, [] => []
  | _, .bind_descriptors bs :: rest => ⟨[], [], .bind_descriptors bs⟩ :: stepsFrom bs rest
  | bound, c :: rest => ⟨readsOf bound c, writesOf bound c, c⟩ :: stepsFrom bound rest

/-- Whenever a step writes a resource and a later step reads or writes an
overlapping resource, a barrier for the written resource lies between the
two. -/
def HazardFreeSteps {ι : Type} [DecidableEq ι] (same : ι → ι → Bool) (tr : List (Step ι)) :
    Prop :=
  ∀ (i j : Nat) (a b : Step ι), i < j → tr[i]? = some a → tr[j]? = some b →
    ∀ r ∈ a.writes, ∀ r' ∈ b.reads ++ b.writes, r.overlaps same r' = true →
      ∃ (k : Nat) (c : Step ι), i < k ∧ k < j ∧ tr[k]? = some c ∧ covers same c.cmd r = true

/-- Whenever a command of the list writes a resource and a later command reads
or writes it, a memory barrier (global, or an image barrier on that image) is
recorded between the two. -/
def HazardFree {ι : Type} [DecidableEq ι] (same : ι → ι → Bool) (cmds : List (Cmd ι)) : Prop :=
  HazardFreeSteps same (stepsFrom [] cmds)

/-- One pass over the steps: `pending` are the resources written so far with
no barrier for them since; a step that reads or writes a resource overlapping a
pending one fails the check. -/
def hazardCheck {ι : Type} [DecidableEq ι] (same : ι → ι → Bool) :
    List (Res ι) → List (Step ι) → Bool
  | _, [] => true
  | pending, st :: rest =>
    !(pending.any fun p => (st.reads ++ st.writes).any fun r => p.overlaps same r)
      && hazardCheck same ((pending.filter fun p => !covers same st.cmd p) ++ st.writes) rest

/-- The pending writes after a list of steps. -/
def pendingAfter {ι : Type} (same : ι → ι → Bool) : List (Res ι) → List (Step ι) → List (Res ι)
  | pending, [] => pending
  | pending, st :: rest =>
    pendingAfter same ((pending.filter fun p => !covers same st.cmd p) ++ st.writes) rest

/-- The descriptor set bound after a command list. -/
def boundAfter {ι : Type} : List (Binding ι) → List (Cmd ι) → List (Binding ι)
  | bound, [] => bound
  | _, .bind_descriptors bs :: rest => boundAfter bs rest
  | bound, _ :: rest => boundAfter bound rest

/-! ## Projection matrix of the camera in `anti_aliasing` -/

/-- The matrices of `avk::quake_camera` that `anti_aliasing` reads and sets;
`μ` is the type of matrices. -/
structure quake_camera (μ : Type) where
  view_matrix : μ
  projection_matrix : μ

/-- The matrix members of `anti_aliasing`. -/
structure TaaMatrices (μ : Type) where
  mProjMatrixLast : μ
  mProjMatrixCurrent : μ
  mViewMatrixLast : μ
  mViewMatrixCurrent : μ
  mProjMatrixToRestore : μ

namespace anti_aliasing

/-- The method `get_jitter_offset_for_frame`: it returns `{0.0f, 0.0f}`. -/
def get_jitter_offset_for_frame (_ : Int) : ℚ × ℚ := (0, 0)

/-- The method `get_jittered_projection_matrix`; `translate offset m` stands
for `glm::translate(glm::vec3{offset.x, offset.y, 0.0f}) * m`. -/
def get_jittered_projection_matrix {μ : Type} (translate : ℚ × ℚ → μ → μ) (s : anti_aliasing)
    (aProjMatrix : μ) (aFrameId : Int) : μ :=
  if s.mTaaEnabled then translate (get_jitter_offset_for_frame aFrameId) aProjMatrix
  else aProjMatrix

/-- The method `save_view_matrix_and_modify_projection_matrix`: the matrix
members and the camera after the call, `current_frame` being the frame id of the
main window. -/
def save_view_matrix_and_modify_projection_matrix {μ : Type} (translate : ℚ × ℚ → μ → μ)
    (s : anti_aliasing) (m : TaaMatrices μ) (camera : quake_camera μ) (current_frame : Int) :
    TaaMatrices μ × quake_camera μ :=
  ({ mViewMatrixLast := m.mViewMatrixCurrent
     mProjMatrixLast := m.mProjMatrixCurrent
     mViewMatrixCurrent := camera.view_matrix
     mProjMatrixCurrent := camera.projection_matrix
     mProjMatrixToRestore := camera.projection_matrix },
   { camera with
     projection_matrix :=
       get_jittered_projection_matrix translate s camera.projection_matrix current_frame })

/-- The last statement of `render()`: the camera gets `mProjMatrixToRestore` as
its projection matrix. -/
def renderCamera {μ : Type} (m : TaaMatrices μ) (camera : quake_camera μ) : quake_camera μ :=
  { camera with projection_matrix := m.mProjMatrixToRestore }

end anti_aliasing

/-! ## Max reduction over the mip levels -/

/-- The commands of the max reduction for mip level `level` of a `w` x `h`
image: bind level `level - 1` as input and level `level` as output, dispatch for
`max(1, floor(w / 2^level))` x `max(1, floor(h / 2^level))` texels, then a
compute-to-compute barrier. -/
def maxReductionLevel (w h level : Nat) : List (Cmd ToneImage) :=
  [ Cmd.bind_descriptors
      [ Binding.sampled_image 0 0 (ToneImage.mMaxLogLumLevels (level - 1)) Layout.general,
        Binding.storage_image 0 1 (ToneImage.mMaxLogLumLevels level) Layout.general ],
    Cmd.dispatch (groupCount (max 1 (w / 2 ^ level))) (groupCount (max 1 (h / 2 ^ level))) 1,
    Cmd.global_memory_barrier [Stage.compute_shader] [Stage.compute_shader]
      [Access.shader_storage_write] [Access.shader_read] ]

/-- The max reduction for the levels `first`, `first + 1`, ..., `first + count - 1`. -/
def maxReductionFrom (w h : Nat) : (count first : Nat) → List (Cmd ToneImage)
  | 0, _ => []
  | count + 1, first => maxReductionLevel w h first ++ maxReductionFrom w h count (first + 1)

/-- The max reduction for every level `L` with `1 <= L < levels`, in level order. -/
def maxReduction (w h levels : Nat) : List (Cmd ToneImage) :=
  maxReductionFrom w h (levels - 1) 1

/-! ## Tick difference of a timing interval -/

/-- The 32-bit difference `timestamps[1] - timestamps[0]`. -/
def helpers.tickDifference (timestamps : Nat × Nat) : Nat :=
  (timestamps.2 % 2 ^ 32 + 2 ^ 32 - timestamps.1 % 2 ^ 32) % 2 ^ 32

/-! ## Active lights of `lights_editor` -/

/-- The enumeration `avk::lightsource_type`, with the types that `add` does not
name collected in `other`. -/
inductive lightsource_type
  | ambient
  | directional
  | point
  | spot
  | other (tag : Nat)
  deriving DecidableEq, Repr

/-- A light source: its type and, standing for the rest of its data, an
identifier. -/
structure lightsource where
  mType : lightsource_type
  id : Nat
  deriving DecidableEq, Repr

/-- The parallel vectors `mLightsPtr` and `mLightEnabled` of `lights_editor`:
entry `i` is the light `*mLightsPtr[i]` with the flag `mLightEnabled[i]`. -/
structure lights_editor where
  lights : List (lightsource × Bool) := []
  deriving DecidableEq, Repr

namespace lights_editor

/-- The method `add`: the light is appended, enabled. -/
def add (s : lights_editor) (ptrLightsource : lightsource) : lights_editor :=
  { lights := s.lights ++ [(ptrLightsource, true)] }

/-- The loop of `get_active_lights` from entry `i` on, `countPL` being the
counter at that point and the list the entries from `i` on.  The `int` values
are integers: `countPL` never exceeds the number of entries, which is far below
`2^31`. -/
def activeFrom (aLimitNumberOfPointLights : Int) :
    Int → List (lightsource × Bool) → List lightsource
  | _, [] => []
  | countPL, (light, enabled) :: rest =>
    if enabled then
      if 0 ≤ aLimitNumberOfPointLights ∧ light.mType = lightsource_type.point then
        if countPL + 1 > aLimitNumberOfPointLights then
          activeFrom aLimitNumberOfPointLights (countPL + 1) rest
        else light :: activeFrom aLimitNumberOfPointLights (countPL + 1) rest
      else light :: activeFrom aLimitNumberOfPointLights countPL rest
    else activeFrom aLimitNumberOfPointLights countPL rest

/-- The method `get_active_lights`. -/
def get_active_lights (s : lights_editor) (aLimitNumberOfPointLights : Int) :
    List lightsource :=
  activeFrom aLimitNumberOfPointLights 0 s.lights

/-- The enabled lights, in registration order. -/
def enabledLights (s : lights_editor) : List lightsource :=
  (s.lights.filter fun e => e.2).map fun e => e.1

end lights_editor

/-- The light is a point light. -/
def lightsource.isPoint (l : lightsource) : Bool := decide (l.mType = lightsource_type.point)

/-- The function `helpers::get_active_lightsources`: the lights of the
`lights_editor` of the composition if there is one, else `get_lights()`. -/
def helpers.get_active_lightsources (lightsEd : Option lights_editor)
    (get_lights : List lightsource) (aLimitNumberOfPointLights : Int) : List lightsource :=
  match lightsEd with
  | some editor => editor.get_active_lights aLimitNumberOfPointLights
  | none => get_lights

/-! ## Sample inputs -/

/-- The members of `anti_aliasing` after construction, for a 16 x 16 destination. -/
def sampleTaa : anti_aliasing := { width := 16, height := 16 }

/-- The members of `ambient_occlusion` after construction, for a 16 x 16 destination. -/
def sampleAo : ambient_occlusion := { width := 16, height := 16 }

/-- The members of `reflections` after construction, for a 16 x 16 destination. -/
def sampleRefl : reflections := { width := 16, height := 16 }

/-- The members of `tone_mapping` after construction, for a 16 x 16 destination
with its five mip levels. -/
def sampleTone : tone_mapping := { levels := 5, width := 16, height := 16 }

/-- A sample shader on numeric contents: it adds its inputs, weighted by
position, to the old content of the storage image. -/
def sampleShade (_ : String) (inputs : List Nat) (old : Nat) : Nat :=
  (inputs.foldl (fun acc x => 10 * acc + x) 0) * 10 + old

/-- Sample numeric contents of the images of `anti_aliasing`. -/
def sampleContents : TaaImage → Nat
  | .mSourceColorImageView => 1
  | .mSourceDepthImageView => 2
  | .mDestinationImageView => 3
  | .mHistoryColorImageView => 4
  | .mHistoryDepthImageView => 5

/-- The map after the first `record_timing_interval_start` for the label
"TAA 0". -/
def sampleIntervals : Intervals :=
  helpers.add_timing_interval_and_get_query_pool (fun _ => none) ⟨"TAA", 0⟩

/-- The state after `assignment4::initialize()` with sample handles. -/
def sampleAssignment4 : assignment4 := assignment4.initialized 1 (10, 11) (20, 21) 30

/-- A resize in which every creation succeeds. -/
def sampleCreations : assignment4.Creations :=
  { newFramebuffer := some 2
    hdrImage := fun i => some (110 + i)
    hdrView := fun i => some (12 + i)
    ldrImage := fun i => some (120 + i)
    ldrView := fun i => some (22 + i)
    srgbImage := some 130
    srgbView := some 31 }

/-- A second resize in which every creation succeeds. -/
def sampleCreationsAgain : assignment4.Creations :=
  { newFramebuffer := some 3
    hdrImage := fun i => some (210 + i)
    hdrView := fun i => some (14 + i)
    ldrImage := fun i => some (220 + i)
    ldrView := fun i => some (24 + i)
    srgbImage := some 230
    srgbView := some 32 }

/-- The members of `transfer_to_swapchain` as configured by
`assignment4::initialize`: depth by copy, color by copy into the sRGB
intermediate image, which is blitted into the swapchain image. -/
def assignment4Transfer : transfer_to_swapchain :=
  { mDepthTransferType := transfer_type.copy
    mDepthImageLayouts := ⟨Layout.shader_read_only_optimal, Layout.shader_read_only_optimal⟩
    mColorTransferType := transfer_type.copy
    mColorImageLayouts := ⟨Layout.general, Layout.general⟩
    mIntermediateColorImage := true
    mIntermediateColorTransferType := transfer_type.blit
    mIntermediateColorImageLayouts := ⟨Layout.general, Layout.general⟩ }

/-- Layouts on entry of the transfer: the sources as configured, the backbuffer
attachments in their attachment layouts. -/
def assignment4TransferEntry : SwapImage → Layout
  | .mSrcColor => Layout.general
  | .mSrcDepth => Layout.shader_read_only_optimal
  | .mIntermediateColorImage => Layout.general
  | .backbufferColor _ => Layout.color_attachment_optimal
  | .backbufferDepth _ => Layout.depth_stencil_attachment_optimal

/-! ## Helper lemmas -/

theorem runTaa_valid_of_history (n : Nat) :
    ∀ (s : anti_aliasing) (f : Int), s.mHistoryCreatedFromFrameId = f - 1 →
      (runTaa s f (List.replicate n (TaaEvent.frame true))).map TaaFrame.historyIsValid
        = List.replicate n true := by
  induction n with
  | zero => intro s f _; rfl
  | succ n ih =>
    intro s f h
    simp only [List.replicate_succ, runTaa, List.map_cons]
    congr 1
    · simp [anti_aliasing.historyIsValid, h]
    · apply ih
      simp [anti_aliasing.render]

theorem mem_writesFrom_cons {ι : Type} (i : ι) (x : Cmd ι) (ys : List (Cmd ι))
    (h : ∀ bound, i ∈ writesFrom bound ys) : ∀ bound, i ∈ writesFrom bound (x :: ys) := by
  intro bound
  cases x <;> simp only [writesFrom, List.mem_append, List.mem_cons] <;>
    first
      | exact h _
      | exact Or.inr (h _)

theorem mem_writesFrom_append {ι : Type} (i : ι) (xs ys : List (Cmd ι))
    (h : ∀ bound, i ∈ writesFrom bound ys) : ∀ bound, i ∈ writesFrom bound (xs ++ ys) := by
  induction xs with
  | nil => simpa using h
  | cons x xs ih => exact mem_writesFrom_cons i x (xs ++ ys) ih

theorem getLast?_append_of_getLast? {α : Type} (a : α) (xs ys : List α)
    (h : ys.getLast? = some a) : (xs ++ ys).getLast? = some a := by
  simp [List.getLast?_append, h]

theorem layoutAfter_append {ι : Type} (same : ι → ι → Bool) (xs ys : List (Cmd ι))
    (entry : ι → Layout) :
    layoutAfter same (xs ++ ys) entry = layoutAfter same ys (layoutAfter same xs entry) := by
  simp [layoutAfter, List.foldl_append]

theorem layoutAfter_maxLoop (same : ToneImage → ToneImage → Bool) (remaining : Nat) :
    ∀ (level mipW mipH : Nat) (entry : ToneImage → Layout),
      layoutAfter same (tone_mapping.maxLoop remaining level mipW mipH) entry = entry := by
  induction remaining with
  | zero => intro level mipW mipH entry; rfl
  | succ n ih =>
    intro level mipW mipH entry
    simp only [tone_mapping.maxLoop, layoutAfter_append, ih]
    rfl

/-! ## History validity of `anti_aliasing` -/

/-- C1 (evaluation at the failing inputs): with TAA disabled in frame 0 the
render call of frame 0 writes no history (its only transfer is source color to
destination) and leaves `mHistoryCreatedFromFrameId` at its initial value 0, yet
`render()` of frame 1 computes `historyIsValid = true`; and with a `config()`
call between the render calls of frames 0 and 1, `render()` of frame 1 computes
`historyIsValid = true` as well. -/
theorem anti_aliasing_history_valid_without_written_history :
    (runTaa { width := 16, height := 16 } 0 [.frame false, .frame true]).map
        (fun f => (f.frameId, f.taaEnabled, transfers f.commands, f.historyIsValid))
      = [ (0, false, [(.mSourceColorImageView, .mDestinationImageView)], false),
          (1, true, [ (.mSourceDepthImageView, .mHistoryDepthImageView),
                      (.mDestinationImageView, .mHistoryColorImageView) ], true) ]
    ∧ (runTaaState { width := 16, height := 16 } 0 [.frame false]).1.mHistoryCreatedFromFrameId = 0
    ∧ (runTaa { width := 16, height := 16 } 0 [.frame true, .config 32 32, .frame true]).map
        (fun f => (f.frameId, f.taaEnabled, f.historyIsValid))
      = [(0, true, false), (1, true, true)] := by
  refine ⟨?_, ?_, ?_⟩ <;> decide

/-- C2: rendering the consecutive frames 0, 1, ..., N from the initial members,
with TAA enabled in every frame and no `config()` call in between,
`historyIsValid` is false at frame 0 and true at each of the frames 1..N. -/
theorem anti_aliasing_history_valid_from_frame_one (w h N : Nat) :
    (runTaa { width := w, height := h } 0
        (List.replicate (N + 1) (TaaEvent.frame true))).map TaaFrame.historyIsValid
      = false :: List.replicate N true := by
  simp only [List.replicate_succ, runTaa, List.map_cons]
  congr 1
  apply runTaa_valid_of_history
  simp [anti_aliasing.render]

/-- C3 (evaluation at the failing input): frame 0 is rendered with TAA enabled,
then `config()` is called again, then frame 1 is rendered.  `config()` leaves
`mHistoryCreatedFromFrameId` untouched, so `render()` of frame 1 computes
`historyIsValid = true`, records the TAA dispatch reading the history images, and
records no copy of the source color into the destination. -/
theorem anti_aliasing_config_keeps_history_valid :
    (∀ (s : anti_aliasing) (w h : Nat),
      (s.config w h).mHistoryCreatedFromFrameId = s.mHistoryCreatedFromFrameId)
    ∧ (runTaa { width := 16, height := 16 } 0 [.frame true, .config 32 32, .frame true]).map
        (fun f => (f.frameId, f.historyIsValid, dispatches f.commands, transfers f.commands))
      = [ (0, false, [],
            [ (.mSourceColorImageView, .mDestinationImageView),
              (.mSourceDepthImageView, .mHistoryDepthImageView),
              (.mDestinationImageView, .mHistoryColorImageView) ]),
          (1, true, [Cmd.dispatch 2 2 1],
            [ (.mSourceDepthImageView, .mHistoryDepthImageView),
              (.mDestinationImageView, .mHistoryColorImageView) ]) ] := by
  refine ⟨fun _ _ _ => rfl, ?_⟩
  decide

/-- C4: when `render()` runs for frame `frameId` with TAA enabled and
`historyIsValid` false, it records no dispatch; its transfers are, in this order,
source color into destination, source depth into history depth and destination
into history color; and it sets `mHistoryCreatedFromFrameId` to `frameId`, so
that `historyIsValid` is true in frame `frameId + 1`. -/
theorem anti_aliasing_invalid_history_copies (s : anti_aliasing) (frameId : Int)
    (hEnabled : s.mTaaEnabled = true) (hInvalid : s.historyIsValid frameId = false) :
    dispatches (s.renderCommands frameId) = []
    ∧ transfers (s.renderCommands frameId)
        = [ (.mSourceColorImageView, .mDestinationImageView),
            (.mSourceDepthImageView, .mHistoryDepthImageView),
            (.mDestinationImageView, .mHistoryColorImageView) ]
    ∧ (s.render frameId).mHistoryCreatedFromFrameId = frameId
    ∧ (s.render frameId).historyIsValid (frameId + 1) = true := by
  refine ⟨?_, ?_, ?_, ?_⟩
  · simp [anti_aliasing.renderCommands, anti_aliasing.recorded, hEnabled, hInvalid,
      anti_aliasing.copy_depth_image_into_history_image,
      anti_aliasing.copy_color_image_into_history_image, dispatches, Cmd.isDispatch]
  · simp [anti_aliasing.renderCommands, anti_aliasing.recorded, hEnabled, hInvalid,
      anti_aliasing.copy_depth_image_into_history_image,
      anti_aliasing.copy_color_image_into_history_image, transfers, Cmd.transfer?]
  · simp [anti_aliasing.render, hEnabled]
  · simp [anti_aliasing.render, anti_aliasing.historyIsValid, hEnabled]

/-- Witness of C4: frame 0 from the initial members. -/
theorem anti_aliasing_invalid_history_copies_witness :
    (sampleTaa.mTaaEnabled = true ∧ sampleTaa.historyIsValid 0 = false)
    ∧ dispatches (sampleTaa.renderCommands 0) = []
    ∧ transfers (sampleTaa.renderCommands 0)
        = [ (.mSourceColorImageView, .mDestinationImageView),
            (.mSourceDepthImageView, .mHistoryDepthImageView),
            (.mDestinationImageView, .mHistoryColorImageView) ]
    ∧ (sampleTaa.render 0).mHistoryCreatedFromFrameId = 0
    ∧ (sampleTaa.render 0).historyIsValid (0 + 1) = true :=
  ⟨⟨rfl, by decide⟩, anti_aliasing_invalid_history_copies sampleTaa 0 rfl (by decide)⟩

/-! ## Copy-through and destination writes -/

/-- C5: a disabled optional pass records no dispatch and exactly one transfer,
from its source color image to its destination image: `ambient_occlusion` with
`mSsaoEnabled = false` (a blit), `reflections` with `mReflectionsEnabled = false`
(a copy) and `anti_aliasing` with `mTaaEnabled = false` (a copy). -/
theorem disabled_pass_copies_through (ao : ambient_occlusion) (refl : reflections)
    (taa : anti_aliasing) (frameId : Int) (hAo : ao.mSsaoEnabled = false)
    (hRefl : refl.mReflectionsEnabled = false) (hTaa : taa.mTaaEnabled = false) :
    (dispatches ao.renderCommands = []
      ∧ transfers ao.renderCommands = [(AoImage.mSrcColor, AoImage.mDstResults)])
    ∧ (dispatches refl.renderCommands = []
      ∧ transfers refl.renderCommands = [(ReflImage.mSrcColor, ReflImage.mDstResults)])
    ∧ (dispatches (taa.renderCommands frameId) = []
      ∧ transfers (taa.renderCommands frameId)
          = [(TaaImage.mSourceColorImageView, TaaImage.mDestinationImageView)]) := by
  refine ⟨⟨?_, ?_⟩, ⟨?_, ?_⟩, ⟨?_, ?_⟩⟩
  · simp [ambient_occlusion.renderCommands, ambient_occlusion.blitCommands, hAo, dispatches,
      Cmd.isDispatch]
  · simp [ambient_occlusion.renderCommands, ambient_occlusion.blitCommands, hAo, transfers,
      Cmd.transfer?]
  · simp [reflections.renderCommands, hRefl, dispatches, Cmd.isDispatch]
  · simp [reflections.renderCommands, hRefl, transfers, Cmd.transfer?]
  · simp [anti_aliasing.renderCommands, anti_aliasing.recorded, hTaa, dispatches, Cmd.isDispatch]
  · simp [anti_aliasing.renderCommands, anti_aliasing.recorded, hTaa, transfers, Cmd.transfer?]

/-- Witness of C5: the three passes with their checkbox cleared, frame 7. -/
theorem disabled_pass_copies_through_witness :
    ((({ mSsaoEnabled := false, width := 16, height := 16 } : ambient_occlusion).mSsaoEnabled
        = false)
      ∧ (({ mReflectionsEnabled := false, width := 16, height := 16 } :
          reflections).mReflectionsEnabled = false)
      ∧ (({ mTaaEnabled := false, width := 16, height := 16 } : anti_aliasing).mTaaEnabled
        = false))
    ∧ (dispatches (ambient_occlusion.renderCommands
        { mSsaoEnabled := false, width := 16, height := 16 }) = []
      ∧ transfers (ambient_occlusion.renderCommands
        { mSsaoEnabled := false, width := 16, height := 16 })
          = [(AoImage.mSrcColor, AoImage.mDstResults)])
    ∧ (dispatches (reflections.renderCommands
        { mReflectionsEnabled := false, width := 16, height := 16 }) = []
      ∧ transfers (reflections.renderCommands
        { mReflectionsEnabled := false, width := 16, height := 16 })
          = [(ReflImage.mSrcColor, ReflImage.mDstResults)])
    ∧ (dispatches (anti_aliasing.renderCommands
        { mTaaEnabled := false, width := 16, height := 16 } 7) = []
      ∧ transfers (anti_aliasing.renderCommands
        { mTaaEnabled := false, width := 16, height := 16 } 7)
          = [(TaaImage.mSourceColorImageView, TaaImage.mDestinationImageView)]) :=
  ⟨⟨rfl, rfl, rfl⟩,
    disabled_pass_copies_through { mSsaoEnabled := false, width := 16, height := 16 }
      { mReflectionsEnabled := false, width := 16, height := 16 }
      { mTaaEnabled := false, width := 16, height := 16 } 7 rfl rfl rfl⟩

/-- C6: whatever the members of the pass (enabled, blur, apply, use max, ray
tracing selected with or without a pipeline, history valid or not, any extent
and number of mip levels), the commands recorded by `render()` of
`ambient_occlusion`, `reflections`, `tone_mapping` and `anti_aliasing` contain a
dispatch, copy or blit that writes the destination image of the pass. -/
theorem render_writes_destination (ao : ambient_occlusion) (refl : reflections)
    (tone : tone_mapping) (taa : anti_aliasing) (frameId : Int) :
    AoImage.mDstResults ∈ writes ao.renderCommands
    ∧ ReflImage.mDstResults ∈ writes refl.renderCommands
    ∧ ToneImage.mDestinationLdr ∈ writes tone.renderCommands
    ∧ TaaImage.mDestinationImageView ∈ writes (taa.renderCommands frameId) := by
  refine ⟨?_, ?_, ?_, ?_⟩
  · by_cases h1 : ao.mSsaoEnabled = true <;> by_cases h2 : ao.mBlurOcclusionFactors = 0 <;>
      by_cases h3 : ao.mApplyOcclusionFactors = 0 <;>
      simp [ambient_occlusion.renderCommands, ambient_occlusion.ssaoCommands,
        ambient_occlusion.blitCommands, ambient_occlusion.render, writes, writesFrom,
        storageImages, h1, h2, h3]
  · by_cases h1 : refl.mReflectionsEnabled = true <;> by_cases h2 : refl.mRtxOn.getD 0 = 0 <;>
      by_cases h3 : refl.mApplyReflections = 1 <;> by_cases h4 : refl.mRayTracingPipeline = true <;>
      simp [reflections.renderCommands, reflections.enabledCommands, reflections.ssrCommands,
        reflections.rtxCommands, reflections.render, writes, writesFrom, storageImages,
        h1, h2, h3, h4]
  · unfold writes tone_mapping.renderCommands tone_mapping.recorded
    simp only [List.append_assoc]
    refine mem_writesFrom_append _ _ _ (mem_writesFrom_append _ _ _
      (mem_writesFrom_append _ _ _ (mem_writesFrom_append _ _ _ ?_))) _
    intro bound
    simp [writesFrom, storageImages]
  · by_cases h1 : taa.mTaaEnabled = true <;> by_cases h2 : taa.historyIsValid frameId = true <;>
      simp [anti_aliasing.renderCommands, anti_aliasing.recorded, anti_aliasing.taaDispatch,
        anti_aliasing.copy_depth_image_into_history_image,
        anti_aliasing.copy_color_image_into_history_image, writes, writesFrom, storageImages,
        h1, h2]

/-! ## History contents -/

/-- C7: images as values, copies as assignments.  After `render()` of frame
`frameId` with TAA enabled, the history color image holds the content of the
destination image and the history depth image holds the content the source depth
image had in that frame.  If the history images are untouched until `render()`
of frame `frameId + 1` (contents `τ` at its start, the other images arbitrary),
the TAA dispatch of that frame reads as history exactly these two contents. -/
theorem anti_aliasing_history_is_previous_frame {α : Type} (shade : String → List α → α → α)
    (s : anti_aliasing) (frameId : Int) (σ τ : TaaImage → α)
    (hEnabled : s.mTaaEnabled = true)
    (hColor : τ .mHistoryColorImageView
      = exec shade (s.renderCommands frameId) σ .mHistoryColorImageView)
    (hDepth : τ .mHistoryDepthImageView
      = exec shade (s.renderCommands frameId) σ .mHistoryDepthImageView) :
    exec shade (s.renderCommands frameId) σ .mHistoryColorImageView
        = exec shade (s.renderCommands frameId) σ .mDestinationImageView
    ∧ exec shade (s.renderCommands frameId) σ .mHistoryDepthImageView
        = σ .mSourceDepthImageView
    ∧ exec shade (s.renderCommands frameId) σ .mSourceDepthImageView
        = σ .mSourceDepthImageView
    ∧ exec shade ((s.render frameId).renderCommands (frameId + 1)) τ .mDestinationImageView
        = shade "mTaaPipeline"
            [ τ .mSourceColorImageView, τ .mSourceDepthImageView,
              exec shade (s.renderCommands frameId) σ .mDestinationImageView,
              σ .mSourceDepthImageView ]
            (τ .mDestinationImageView) := by
  have hNext : (s.render frameId).historyIsValid (frameId + 1) = true := by
    simp [anti_aliasing.render, anti_aliasing.historyIsValid, hEnabled]
  have hNextEnabled : (s.render frameId).mTaaEnabled = true := by
    simp [anti_aliasing.render, hEnabled]
  have h1 : exec shade (s.renderCommands frameId) σ .mHistoryColorImageView
      = exec shade (s.renderCommands frameId) σ .mDestinationImageView := by
    by_cases hv : s.historyIsValid frameId = true <;>
      simp [anti_aliasing.renderCommands, anti_aliasing.recorded, anti_aliasing.taaDispatch,
        anti_aliasing.copy_depth_image_into_history_image,
        anti_aliasing.copy_color_image_into_history_image, exec, execFrom, storageImages,
        sampledImages, hEnabled, hv]
  have h2 : exec shade (s.renderCommands frameId) σ .mHistoryDepthImageView
      = σ .mSourceDepthImageView := by
    by_cases hv : s.historyIsValid frameId = true <;>
      simp [anti_aliasing.renderCommands, anti_aliasing.recorded, anti_aliasing.taaDispatch,
        anti_aliasing.copy_depth_image_into_history_image,
        anti_aliasing.copy_color_image_into_history_image, exec, execFrom, storageImages,
        sampledImages, hEnabled, hv]
  have h3 : exec shade (s.renderCommands frameId) σ .mSourceDepthImageView
      = σ .mSourceDepthImageView := by
    by_cases hv : s.historyIsValid frameId = true <;>
      simp [anti_aliasing.renderCommands, anti_aliasing.recorded, anti_aliasing.taaDispatch,
        anti_aliasing.copy_depth_image_into_history_image,
        anti_aliasing.copy_color_image_into_history_image, exec, execFrom, storageImages,
        sampledImages, hEnabled, hv]
  refine ⟨h1, h2, h3, ?_⟩
  rw [← h1, ← hColor, ← h2, ← hDepth]
  simp [anti_aliasing.renderCommands, anti_aliasing.recorded, anti_aliasing.taaDispatch,
    anti_aliasing.copy_depth_image_into_history_image,
    anti_aliasing.copy_color_image_into_history_image, exec, execFrom, storageImages,
    sampledImages, hNext, hNextEnabled]

/-- Witness of C7: frames 0 and 1 from the initial members, on sample numeric
contents; the contents at the start of frame 1 are those left by frame 0. -/
theorem anti_aliasing_history_is_previous_frame_witness :
    (sampleTaa.mTaaEnabled = true)
    ∧ exec sampleShade (sampleTaa.renderCommands 0) sampleContents .mHistoryColorImageView
        = exec sampleShade (sampleTaa.renderCommands 0) sampleContents .mDestinationImageView
    ∧ exec sampleShade (sampleTaa.renderCommands 0) sampleContents .mHistoryDepthImageView
        = sampleContents .mSourceDepthImageView
    ∧ exec sampleShade (sampleTaa.renderCommands 0) sampleContents .mSourceDepthImageView
        = sampleContents .mSourceDepthImageView
    ∧ exec sampleShade ((sampleTaa.render 0).renderCommands (0 + 1))
          (exec sampleShade (sampleTaa.renderCommands 0) sampleContents) .mDestinationImageView
        = sampleShade "mTaaPipeline"
            [ exec sampleShade (sampleTaa.renderCommands 0) sampleContents .mSourceColorImageView,
              exec sampleShade (sampleTaa.renderCommands 0) sampleContents .mSourceDepthImageView,
              exec sampleShade (sampleTaa.renderCommands 0) sampleContents .mDestinationImageView,
              sampleContents .mSourceDepthImageView ]
            (exec sampleShade (sampleTaa.renderCommands 0) sampleContents
              .mDestinationImageView) :=
  ⟨rfl, anti_aliasing_history_is_previous_frame sampleShade sampleTaa 0 sampleContents
    (exec sampleShade (sampleTaa.renderCommands 0) sampleContents) rfl rfl rfl⟩

/-! ## Synchronisation at the end of a pass -/

/-- C8: for every value of the members, the last command recorded by `render()`
of `ambient_occlusion`, `reflections`, `tone_mapping` and `anti_aliasing` is a
global memory barrier whose destination stages include `compute_shader` and
`transfer`. -/
theorem render_ends_with_barrier (ao : ambient_occlusion) (refl : reflections)
    (tone : tone_mapping) (taa : anti_aliasing) (frameId : Int) :
    EndsWithBarrierToComputeAndTransfer ao.renderCommands
    ∧ EndsWithBarrierToComputeAndTransfer refl.renderCommands
    ∧ EndsWithBarrierToComputeAndTransfer tone.renderCommands
    ∧ EndsWithBarrierToComputeAndTransfer (taa.renderCommands frameId) := by
  refine ⟨?_, ?_, ?_, ?_⟩
  · exact ⟨[Stage.compute_shader, Stage.transfer], [Stage.compute_shader, Stage.transfer],
      [Access.shader_storage_write, Access.transfer_write],
      [Access.shader_read, Access.transfer_read],
      getLast?_append_of_getLast? _ _ _ rfl, by decide, by decide⟩
  · exact ⟨[Stage.compute_shader, Stage.transfer], [Stage.compute_shader, Stage.transfer],
      [Access.shader_storage_write, Access.transfer_write],
      [Access.shader_read, Access.transfer_read],
      getLast?_append_of_getLast? _ _ _ rfl, by decide, by decide⟩
  · refine ⟨[Stage.compute_shader], [Stage.compute_shader, Stage.transfer],
      [Access.shader_storage_write], [Access.shader_read, Access.transfer_read], ?_,
      by decide, by decide⟩
    unfold tone_mapping.renderCommands tone_mapping.recorded
    exact getLast?_append_of_getLast? _ _ _ rfl
  · exact ⟨[Stage.compute_shader, Stage.transfer], [Stage.compute_shader, Stage.transfer],
      [Access.shader_storage_write, Access.transfer_write],
      [Access.shader_read, Access.transfer_read],
      getLast?_append_of_getLast? _ _ _ rfl, by decide, by decide⟩

/-! ## Layouts on exit -/

/-- C9: from the documented entry layouts (G-buffer attachments in
`shader_read_only_optimal`, storage, intermediate, luminance and history images
in `general`), the commands recorded by `render()` of `ambient_occlusion`,
`reflections`, `tone_mapping` and `anti_aliasing` leave every image in the layout
it had on entry, for every value of the members. -/
theorem render_restores_layouts (ao : ambient_occlusion) (refl : reflections)
    (tone : tone_mapping) (taa : anti_aliasing) (frameId : Int) :
    (∀ img, layoutAfter sameView ao.renderCommands ambient_occlusion.entryLayout img
        = ambient_occlusion.entryLayout img)
    ∧ (∀ img, layoutAfter sameView refl.renderCommands reflections.entryLayout img
        = reflections.entryLayout img)
    ∧ (∀ img, layoutAfter ToneImage.sameImage tone.renderCommands tone_mapping.entryLayout img
        = tone_mapping.entryLayout img)
    ∧ (∀ img, layoutAfter sameView (taa.renderCommands frameId) anti_aliasing.entryLayout img
        = anti_aliasing.entryLayout img) := by
  refine ⟨?_, ?_, ?_, ?_⟩
  · intro img
    by_cases h1 : ao.mSsaoEnabled = true <;> by_cases h2 : ao.mBlurOcclusionFactors = 0 <;>
      by_cases h3 : ao.mApplyOcclusionFactors = 0 <;> cases img <;>
      simp [ambient_occlusion.renderCommands, ambient_occlusion.ssaoCommands,
        ambient_occlusion.blitCommands, ambient_occlusion.render,
        ambient_occlusion.entryLayout, layoutAfter, Cmd.applyLayout, sameView, h1, h2, h3]
  · intro img
    by_cases h1 : refl.mReflectionsEnabled = true <;> by_cases h2 : refl.mRtxOn.getD 0 = 0 <;>
      by_cases h3 : refl.mApplyReflections = 1 <;>
      by_cases h4 : refl.mRayTracingPipeline = true <;> cases img <;>
      simp [reflections.renderCommands, reflections.enabledCommands, reflections.ssrCommands,
        reflections.rtxCommands, reflections.render, reflections.entryLayout, layoutAfter,
        Cmd.applyLayout, sameView, h1, h2, h3, h4]
  · intro img
    unfold tone_mapping.renderCommands tone_mapping.recorded
    by_cases h1 : tone.render.mUseMax = true
    · simp only [h1, if_true, layoutAfter_append]
      rw [show ∀ l : List (Cmd ToneImage), Cmd.bind_pipeline "mMaxPipeline" :: l
        = [Cmd.bind_pipeline "mMaxPipeline"] ++ l from fun _ => rfl, layoutAfter_append,
        layoutAfter_maxLoop]
      cases img <;>
        simp [tone_mapping.dispatch_and_sync_with_subsequent_compute, tone_mapping.entryLayout,
          layoutAfter, Cmd.applyLayout, ToneImage.sameImage]
    · simp only [h1, layoutAfter_append]
      cases img <;>
        simp [tone_mapping.dispatch_and_sync_with_subsequent_compute, tone_mapping.entryLayout,
          layoutAfter, Cmd.applyLayout, ToneImage.sameImage]
  · intro img
    by_cases h1 : taa.mTaaEnabled = true <;> by_cases h2 : taa.historyIsValid frameId = true <;>
      cases img <;>
      simp [anti_aliasing.renderCommands, anti_aliasing.recorded, anti_aliasing.taaDispatch,
        anti_aliasing.copy_depth_image_into_history_image,
        anti_aliasing.copy_color_image_into_history_image, anti_aliasing.entryLayout,
        layoutAfter, Cmd.applyLayout, sameView, h1, h2]

/-! ## `transfer_to_swapchain` -/

/-- C10: for every swapchain image index `i` below the number of swapchain
images and every value of the members (copy or blit for color, depth and
intermediate, with or without an intermediate color image, any in and out
layouts), the command buffer recorded for image `i` by
`generate_command_buffers()` contains exactly one transfer into the color
attachment of backbuffer `i` and exactly one into its depth attachment, and,
whatever the layouts on entry, leaves the color attachment in
`color_attachment_optimal` and the depth attachment in
`depth_stencil_attachment_optimal`. -/
theorem transfer_to_swapchain_backbuffer (s : transfer_to_swapchain)
    (numSwapchainImages i : Nat) (entry : SwapImage → Layout) (hi : i < numSwapchainImages) :
    (s.generate_command_buffers numSwapchainImages)[i]? = some (s.commandBuffer i)
    ∧ transfersInto (s.commandBuffer i) (SwapImage.backbufferColor i) = 1
    ∧ transfersInto (s.commandBuffer i) (SwapImage.backbufferDepth i) = 1
    ∧ layoutAfter sameView (s.commandBuffer i) entry (SwapImage.backbufferColor i)
        = Layout.color_attachment_optimal
    ∧ layoutAfter sameView (s.commandBuffer i) entry (SwapImage.backbufferDepth i)
        = Layout.depth_stencil_attachment_optimal := by
  refine ⟨?_, ?_, ?_, ?_, ?_⟩
  · simp [transfer_to_swapchain.generate_command_buffers, List.getElem?_range hi]
  all_goals
    rcases s with ⟨dt, dl, ct, cl, ic, ict, icl⟩
    cases dt <;> cases ct <;> cases ic <;> cases ict <;>
      simp [transfer_to_swapchain.commandBuffer, transfer_to_swapchain.transferCommand,
        transfersInto, transfers, Cmd.transfer?, layoutAfter, Cmd.applyLayout, sameView]

/-- Witness of C10: the transfer as configured by `assignment4::initialize`,
three swapchain images, image 1. -/
theorem transfer_to_swapchain_backbuffer_witness :
    (1 < 3)
    ∧ (assignment4Transfer.generate_command_buffers 3)[1]?
        = some (assignment4Transfer.commandBuffer 1)
    ∧ transfersInto (assignment4Transfer.commandBuffer 1) (SwapImage.backbufferColor 1) = 1
    ∧ transfersInto (assignment4Transfer.commandBuffer 1) (SwapImage.backbufferDepth 1) = 1
    ∧ layoutAfter sameView (assignment4Transfer.commandBuffer 1) assignment4TransferEntry
        (SwapImage.backbufferColor 1) = Layout.color_attachment_optimal
    ∧ layoutAfter sameView (assignment4Transfer.commandBuffer 1) assignment4TransferEntry
        (SwapImage.backbufferDepth 1) = Layout.depth_stencil_attachment_optimal :=
  ⟨by decide, transfer_to_swapchain_backbuffer assignment4Transfer 3 1 assignment4TransferEntry
    (by decide)⟩

/-! ## Source layouts of `transfer_to_swapchain` -/

/-- C11: if the source color image enters in `mColorImageLayouts.mOld` and the
source depth image in `mDepthImageLayouts.mOld`, the command buffer recorded for
swapchain image `i` leaves them in `mColorImageLayouts.mNew` and
`mDepthImageLayouts.mNew`, and the layout transitions recorded for each of them
are exactly `mOld >> transfer_src` and `transfer_src >> mNew`, each declared
from the layout the image is in at that point. -/
theorem transfer_to_swapchain_source_layouts (s : transfer_to_swapchain) (i : Nat)
    (entry : SwapImage → Layout)
    (hColor : entry SwapImage.mSrcColor = s.mColorImageLayouts.mOld)
    (hDepth : entry SwapImage.mSrcDepth = s.mDepthImageLayouts.mOld) :
    layoutAfter sameView (s.commandBuffer i) entry SwapImage.mSrcColor
        = s.mColorImageLayouts.mNew
    ∧ layoutAfter sameView (s.commandBuffer i) entry SwapImage.mSrcDepth
        = s.mDepthImageLayouts.mNew
    ∧ transitionsOf sameView (s.commandBuffer i) entry SwapImage.mSrcColor
        = [ ⟨SwapImage.mSrcColor, s.mColorImageLayouts.mOld, s.mColorImageLayouts.mOld,
              some Layout.transfer_src⟩,
            ⟨SwapImage.mSrcColor, Layout.transfer_src, Layout.transfer_src,
              some s.mColorImageLayouts.mNew⟩ ]
    ∧ transitionsOf sameView (s.commandBuffer i) entry SwapImage.mSrcDepth
        = [ ⟨SwapImage.mSrcDepth, s.mDepthImageLayouts.mOld, s.mDepthImageLayouts.mOld,
              some Layout.transfer_src⟩,
            ⟨SwapImage.mSrcDepth, Layout.transfer_src, Layout.transfer_src,
              some s.mDepthImageLayouts.mNew⟩ ] := by
  rcases s with ⟨dt, dl, ct, cl, ic, ict, icl⟩
  refine ⟨?_, ?_, ?_, ?_⟩ <;>
    cases dt <;> cases ct <;> cases ic <;> cases ict <;>
      simp [transfer_to_swapchain.commandBuffer, transfer_to_swapchain.transferCommand,
        layoutAfter, transitionsOf, layoutLog, Cmd.layoutUses, Cmd.applyLayout, sameView,
        hColor, hDepth] at hColor hDepth ⊢

/-- Witness of C11: the transfer as configured by `assignment4::initialize`. -/
theorem transfer_to_swapchain_source_layouts_witness :
    (assignment4TransferEntry SwapImage.mSrcColor = assignment4Transfer.mColorImageLayouts.mOld
      ∧ assignment4TransferEntry SwapImage.mSrcDepth
        = assignment4Transfer.mDepthImageLayouts.mOld)
    ∧ layoutAfter sameView (assignment4Transfer.commandBuffer 0) assignment4TransferEntry
        SwapImage.mSrcColor = assignment4Transfer.mColorImageLayouts.mNew
    ∧ layoutAfter sameView (assignment4Transfer.commandBuffer 0) assignment4TransferEntry
        SwapImage.mSrcDepth = assignment4Transfer.mDepthImageLayouts.mNew
    ∧ transitionsOf sameView (assignment4Transfer.commandBuffer 0) assignment4TransferEntry
        SwapImage.mSrcColor
        = [ ⟨SwapImage.mSrcColor, assignment4Transfer.mColorImageLayouts.mOld,
              assignment4Transfer.mColorImageLayouts.mOld, some Layout.transfer_src⟩,
            ⟨SwapImage.mSrcColor, Layout.transfer_src, Layout.transfer_src,
              some assignment4Transfer.mColorImageLayouts.mNew⟩ ]
    ∧ transitionsOf sameView (assignment4Transfer.commandBuffer 0) assignment4TransferEntry
        SwapImage.mSrcDepth
        = [ ⟨SwapImage.mSrcDepth, assignment4Transfer.mDepthImageLayouts.mOld,
              assignment4Transfer.mDepthImageLayouts.mOld, some Layout.transfer_src⟩,
            ⟨SwapImage.mSrcDepth, Layout.transfer_src, Layout.transfer_src,
              some assignment4Transfer.mDepthImageLayouts.mNew⟩ ] :=
  ⟨⟨rfl, rfl⟩,
    transfer_to_swapchain_source_layouts assignment4Transfer 0 assignment4TransferEntry rfl rfl⟩

/-! ## Execution order -/

/-- C14: `execution_order()` returns the same constant for every value of the
members: 20 for `ambient_occlusion`, 40 for `reflections`, 60 for
`tone_mapping`, 80 for `anti_aliasing`, 99 for `transfer_to_swapchain`, 100 for
`camera_presets` and 1000 for `lights_editor`; the values increase strictly
along the chain, and `transfer_to_swapchain` precedes `camera_presets` and
`lights_editor`. -/
theorem execution_order_chain (ao : ambient_occlusion) (refl : reflections)
    (tone : tone_mapping) (taa : anti_aliasing) (transfer : transfer_to_swapchain) :
    (ao.execution_order = 20 ∧ refl.execution_order = 40 ∧ tone.execution_order = 60
      ∧ taa.execution_order = 80 ∧ transfer.execution_order = 99
      ∧ camera_presets.execution_order = 100 ∧ lights_editor.execution_order = 1000)
    ∧ ao.execution_order < refl.execution_order
    ∧ refl.execution_order < tone.execution_order
    ∧ tone.execution_order < taa.execution_order
    ∧ taa.execution_order < transfer.execution_order
    ∧ transfer.execution_order < camera_presets.execution_order
    ∧ transfer.execution_order < lights_editor.execution_order := by
  refine ⟨⟨rfl, rfl, rfl, rfl, rfl, rfl, rfl⟩, ?_, ?_, ?_, ?_, ?_, ?_⟩ <;>
    simp [ambient_occlusion.execution_order, reflections.execution_order,
      tone_mapping.execution_order, anti_aliasing.execution_order,
      transfer_to_swapchain.execution_order, camera_presets.execution_order,
      lights_editor.execution_order]

/-! ## Ping-pong index -/

/-- C17 (counterexample): with `mSsaoEnabled = false`, `render()` of
`ambient_occlusion` leaves `mPingPong` at 1 instead of `1 - 1`; likewise
`render()` of `reflections` with `mReflectionsEnabled = false`. -/
theorem disabled_render_keeps_ping_pong :
    (ambient_occlusion.render { mSsaoEnabled := false, width := 16, height := 16 }).mPingPong = 1
    ∧ (ambient_occlusion.render { mSsaoEnabled := false, width := 16, height := 16 }).mPingPong
        ≠ 1 - ({ mSsaoEnabled := false, width := 16, height := 16 } : ambient_occlusion).mPingPong
    ∧ (reflections.render { mReflectionsEnabled := false, width := 16, height := 16 }).mPingPong
        = 1
    ∧ (reflections.render { mReflectionsEnabled := false, width := 16, height := 16 }).mPingPong
        ≠ 1 - ({ mReflectionsEnabled := false, width := 16, height := 16 } :
            reflections).mPingPong := by
  decide

/-- C17 (amended): every `render()` of `tone_mapping` and of `anti_aliasing`
flips `mPingPong` (it becomes `1 - mPingPong`) whatever the flags; `render()` of
`ambient_occlusion` and of `reflections` flips it when the pass is enabled and
leaves it unchanged when the pass is disabled. -/
theorem render_flips_ping_pong (ao : ambient_occlusion) (refl : reflections)
    (tone : tone_mapping) (taa : anti_aliasing) (frameId : Int) :
    tone.render.mPingPong = 1 - tone.mPingPong
    ∧ (taa.render frameId).mPingPong = 1 - taa.mPingPong
    ∧ ao.render.mPingPong = (if ao.mSsaoEnabled then 1 - ao.mPingPong else ao.mPingPong)
    ∧ refl.render.mPingPong
        = (if refl.mReflectionsEnabled then 1 - refl.mPingPong else refl.mPingPong) := by
  refine ⟨rfl, rfl, ?_, ?_⟩
  · cases h : ao.mSsaoEnabled <;> simp [ambient_occlusion.render, h]
  · cases h : refl.mReflectionsEnabled <;> simp [reflections.render, h]

/-! ## Timing intervals -/

theorem closesInterval_sound {ι : Type} (label : TimingLabel) :
    ∀ rest : List (Cmd ι), closesInterval label rest = true →
      ∃ effect after : List (Cmd ι),
        rest = effect ++ Cmd.record_timing_interval_end label :: after
        ∧ effect.filter Cmd.isTiming = []
        ∧ dispatches after = [] ∧ transfers after = [] ∧ after.filter Cmd.isTiming = [] := by
  intro rest
  induction rest with
  | nil => intro h; simp [closesInterval] at h
  | cons c rest ih =>
    intro h
    obtain ⟨c0, hc0⟩ : ∃ c0, c0 = c := ⟨c, rfl⟩
    cases c
    case record_timing_interval_end l =>
      simp only [closesInterval, Bool.and_eq_true, decide_eq_true_eq, List.all_eq_true,
        Bool.not_eq_true', Option.isNone_iff_eq_none] at h
      obtain ⟨hl, hall⟩ := h
      refine ⟨[], rest, by simp [hl], rfl, ?_, ?_, ?_⟩
      · simp only [dispatches, List.filter_eq_nil_iff]
        intro a ha; simp [(hall a ha).1.1]
      · simp only [transfers, List.filterMap_eq_nil_iff]
        intro a ha; exact (hall a ha).1.2
      · simp only [List.filter_eq_nil_iff]
        intro a ha; simp [(hall a ha).2]
    case record_timing_interval_start l => simp [closesInterval] at h
    all_goals
      simp only [closesInterval] at h
      obtain ⟨effect, after, hEq, hEffect, hRest⟩ := ih h
      refine ⟨c0 :: effect, after, ?_, ?_, hRest⟩
      · rw [hc0, hEq]; rfl
      · rw [hc0]; simpa [Cmd.isTiming] using hEffect

theorem timedBy_sound {ι : Type} (label : TimingLabel) (cmds : List (Cmd ι))
    (h : timedBy label cmds = true) : ∃ effect, TimedEffect label effect cmds := by
  cases cmds with
  | nil => simp [timedBy] at h
  | cons c rest =>
    cases c
    case record_timing_interval_start l =>
      simp only [timedBy, Bool.and_eq_true, decide_eq_true_eq] at h
      obtain ⟨hl, hClose⟩ := h
      obtain ⟨effect, after, hEq, hRest⟩ := closesInterval_sound label rest hClose
      exact ⟨effect, after, by simp [hl, hEq], hRest⟩
    all_goals simp [timedBy] at h

theorem closesInterval_append {ι : Type} (label : TimingLabel) (ys : List (Cmd ι)) :
    ∀ xs : List (Cmd ι), xs.filter Cmd.isTiming = [] →
      closesInterval label (xs ++ ys) = closesInterval label ys := by
  intro xs
  induction xs with
  | nil => intro _; rfl
  | cons c xs ih =>
    intro h
    have hc : c.isTiming = false ∧ xs.filter Cmd.isTiming = [] := by
      cases hct : c.isTiming
      · simpa [List.filter_cons, hct] using h
      · simp [List.filter_cons, hct] at h
    cases c <;>
      first
        | (simp [Cmd.isTiming] at hc; done)
        | (simp only [List.cons_append, closesInterval]; exact ih hc.2)

theorem maxLoop_no_timing (remaining : Nat) :
    ∀ level mipW mipH : Nat,
      (tone_mapping.maxLoop remaining level mipW mipH).filter Cmd.isTiming = [] := by
  induction remaining with
  | zero => intro level mipW mipH; rfl
  | succ n ih =>
    intro level mipW mipH
    simp [tone_mapping.maxLoop, tone_mapping.dispatch_and_sync_with_subsequent_compute,
      List.filter_append, Cmd.isTiming, ih]

theorem timedBy_effect {ι : Type} (label : TimingLabel) (cmds : List (Cmd ι))
    (h : timedBy label cmds = true) :
    ∃ effect, TimedEffect label effect cmds
      ∧ dispatches effect = dispatches cmds ∧ transfers effect = transfers cmds := by
  obtain ⟨effect, after, hEq, hEffect, hd, ht, hAfter⟩ := timedBy_sound label cmds h
  refine ⟨effect, ⟨after, hEq, hEffect, hd, ht, hAfter⟩, ?_, ?_⟩
  · simp only [dispatches] at hd ⊢
    simp [hEq, List.filter_cons, Cmd.isDispatch, hd]
  · simp only [transfers] at ht ⊢
    simp [hEq, List.filterMap_cons, Cmd.transfer?, ht]

/-- C16: in a pass whose effect runs (`ambient_occlusion` with SSAO enabled,
`reflections` and `anti_aliasing` when enabled, `tone_mapping` always),
`render()` records the start and the end timestamp under one label, the pass
name with the value `mPingPong` has after the flip of this `render()`; every
dispatch and transfer it records lies between the two; and `duration()`, called
on the members left by this `render()`, queries that same label. -/
theorem render_times_effect (ao : ambient_occlusion) (refl : reflections)
    (tone : tone_mapping) (taa : anti_aliasing) (frameId : Int)
    (hAo : ao.mSsaoEnabled = true) (hRefl : refl.mReflectionsEnabled = true)
    (hTaa : taa.mTaaEnabled = true) :
    ((∃ effect, TimedEffect ⟨"ssao", 1 - ao.mPingPong⟩ effect ao.renderCommands
        ∧ dispatches effect = dispatches ao.renderCommands
        ∧ transfers effect = transfers ao.renderCommands)
      ∧ ao.render.durationLabel = some ⟨"ssao", 1 - ao.mPingPong⟩)
    ∧ ((∃ effect, TimedEffect ⟨"reflections", 1 - refl.mPingPong⟩ effect refl.renderCommands
        ∧ dispatches effect = dispatches refl.renderCommands
        ∧ transfers effect = transfers refl.renderCommands)
      ∧ refl.render.durationLabel = some ⟨"reflections", 1 - refl.mPingPong⟩)
    ∧ ((∃ effect, TimedEffect ⟨"tone mapping", 1 - tone.mPingPong⟩ effect tone.renderCommands
        ∧ dispatches effect = dispatches tone.renderCommands
        ∧ transfers effect = transfers tone.renderCommands)
      ∧ tone.render.durationLabel = some ⟨"tone mapping", 1 - tone.mPingPong⟩)
    ∧ ((∃ effect, TimedEffect ⟨"TAA", 1 - taa.mPingPong⟩ effect (taa.renderCommands frameId)
        ∧ dispatches effect = dispatches (taa.renderCommands frameId)
        ∧ transfers effect = transfers (taa.renderCommands frameId))
      ∧ (taa.render frameId).durationLabel = some ⟨"TAA", 1 - taa.mPingPong⟩) := by
  refine ⟨⟨?_, ?_⟩, ⟨?_, ?_⟩, ⟨?_, ?_⟩, ⟨?_, ?_⟩⟩
  · apply timedBy_effect
    by_cases h2 : ao.mBlurOcclusionFactors = 0 <;>
      by_cases h3 : ao.mApplyOcclusionFactors = 0 <;>
      simp [ambient_occlusion.renderCommands, ambient_occlusion.ssaoCommands,
        ambient_occlusion.render, timedBy, closesInterval, Cmd.isDispatch, Cmd.transfer?,
        Cmd.isTiming, hAo, h2, h3]
  · simp [ambient_occlusion.durationLabel, ambient_occlusion.render, hAo]
  · apply timedBy_effect
    by_cases h2 : refl.mRtxOn.getD 0 = 0 <;> by_cases h3 : refl.mApplyReflections = 1 <;>
      by_cases h4 : refl.mRayTracingPipeline = true <;>
      simp [reflections.renderCommands, reflections.enabledCommands, reflections.ssrCommands,
        reflections.rtxCommands, reflections.render, timedBy, closesInterval, Cmd.isDispatch,
        Cmd.transfer?, Cmd.isTiming, hRefl, h2, h3, h4]
  · simp [reflections.durationLabel, reflections.render, hRefl]
  · apply timedBy_effect
    have hLoop : ∀ ys : List (Cmd ToneImage),
        closesInterval ⟨"tone mapping", 1 - tone.mPingPong⟩
          ((if tone.mUseMax = true then
              Cmd.bind_pipeline "mMaxPipeline"
                :: tone_mapping.maxLoop (tone.levels - 1) 1 tone.width tone.height
            else []) ++ ys)
          = closesInterval ⟨"tone mapping", 1 - tone.mPingPong⟩ ys := by
      intro ys
      apply closesInterval_append
      by_cases h1 : tone.mUseMax = true
      · simp [h1, Cmd.isTiming, maxLoop_no_timing]
      · simp [h1]
    simp [tone_mapping.renderCommands, tone_mapping.recorded, tone_mapping.render, timedBy,
      closesInterval, hLoop, tone_mapping.dispatch_and_sync_with_subsequent_compute,
      Cmd.isDispatch, Cmd.transfer?, Cmd.isTiming]
  · rfl
  · apply timedBy_effect
    by_cases h2 : taa.historyIsValid frameId = true <;>
      simp [anti_aliasing.renderCommands, anti_aliasing.recorded, anti_aliasing.taaDispatch,
        anti_aliasing.copy_depth_image_into_history_image,
        anti_aliasing.copy_color_image_into_history_image, timedBy, closesInterval,
        Cmd.isDispatch, Cmd.transfer?, Cmd.isTiming, hTaa, h2]
  · simp [anti_aliasing.durationLabel, anti_aliasing.render, hTaa]

/-- Witness of C16: the four passes with their members after construction,
frame 0. -/
theorem render_times_effect_witness :
    (sampleAo.mSsaoEnabled = true ∧ sampleRefl.mReflectionsEnabled = true
      ∧ sampleTaa.mTaaEnabled = true)
    ∧ ((∃ effect, TimedEffect ⟨"ssao", 1 - sampleAo.mPingPong⟩ effect sampleAo.renderCommands
        ∧ dispatches effect = dispatches sampleAo.renderCommands
        ∧ transfers effect = transfers sampleAo.renderCommands)
      ∧ sampleAo.render.durationLabel = some ⟨"ssao", 1 - sampleAo.mPingPong⟩)
    ∧ ((∃ effect, TimedEffect ⟨"reflections", 1 - sampleRefl.mPingPong⟩ effect
          sampleRefl.renderCommands
        ∧ dispatches effect = dispatches sampleRefl.renderCommands
        ∧ transfers effect = transfers sampleRefl.renderCommands)
      ∧ sampleRefl.render.durationLabel = some ⟨"reflections", 1 - sampleRefl.mPingPong⟩)
    ∧ ((∃ effect, TimedEffect ⟨"tone mapping", 1 - sampleTone.mPingPong⟩ effect
          sampleTone.renderCommands
        ∧ dispatches effect = dispatches sampleTone.renderCommands
        ∧ transfers effect = transfers sampleTone.renderCommands)
      ∧ sampleTone.render.durationLabel = some ⟨"tone mapping", 1 - sampleTone.mPingPong⟩)
    ∧ ((∃ effect, TimedEffect ⟨"TAA", 1 - sampleTaa.mPingPong⟩ effect
          (sampleTaa.renderCommands 0)
        ∧ dispatches effect = dispatches (sampleTaa.renderCommands 0)
        ∧ transfers effect = transfers (sampleTaa.renderCommands 0))
      ∧ (sampleTaa.render 0).durationLabel = some ⟨"TAA", 1 - sampleTaa.mPingPong⟩) :=
  ⟨⟨rfl, rfl, rfl⟩, render_times_effect sampleAo sampleRefl sampleTone sampleTaa 0 rfl rfl rfl⟩

/-! ## Declared layouts -/

theorem layoutLog_append {ι : Type} (same : ι → ι → Bool) (ys : List (Cmd ι)) :
    ∀ (xs : List (Cmd ι)) (cur : ι → Layout),
      layoutLog same (xs ++ ys) cur
        = layoutLog same xs cur ++ layoutLog same ys (layoutAfter same xs cur) := by
  intro xs
  induction xs with
  | nil => intro cur; rfl
  | cons x xs ih =>
    intro cur
    simp [layoutLog, layoutAfter, ih]

theorem layoutUses_of_declaresOnly {ι : Type} (same : ι → ι → Bool) (isColor : ι → Bool)
    (l : Layout) (c : Cmd ι)
    (cur : ι → Layout) (hc : c.declaresOnly l = true) (hcur : ∀ j, cur j = l) :
    (c.layoutUses cur).filter (LayoutUse.mismatch isColor) = []
    ∧ ∀ j, Cmd.applyLayout same cur c j = l := by
  cases c
  case image_memory_barrier img ss ds sa da tr =>
    cases tr with
    | none => exact ⟨rfl, hcur⟩
    | some p =>
      obtain ⟨old, new⟩ := p
      simp only [Cmd.declaresOnly, Bool.and_eq_true, decide_eq_true_eq] at hc
      refine ⟨by simp [Cmd.layoutUses, LayoutUse.mismatch, hc.1, hcur], ?_⟩
      intro j
      simp only [Cmd.applyLayout]
      split <;> simp [hc.2, hcur]
  case bind_descriptors bs =>
    refine ⟨?_, hcur⟩
    simp only [Cmd.declaresOnly, List.all_eq_true] at hc
    simp only [Cmd.layoutUses, bindingLayouts, List.filter_eq_nil_iff, List.mem_filterMap]
    rintro u ⟨b, hb, hu⟩
    have hb2 := hc b hb
    cases b <;> simp at hu hb2 <;> subst hu <;> simp [LayoutUse.mismatch, hb2, hcur]
  case copy_image_to_another src sl dst dl =>
    simp only [Cmd.declaresOnly, Bool.and_eq_true, decide_eq_true_eq] at hc
    exact ⟨by simp [Cmd.layoutUses, LayoutUse.mismatch, hc.1, hc.2, hcur], hcur⟩
  case blit_image src sl dst dl =>
    simp only [Cmd.declaresOnly, Bool.and_eq_true, decide_eq_true_eq] at hc
    exact ⟨by simp [Cmd.layoutUses, LayoutUse.mismatch, hc.1, hc.2, hcur], hcur⟩
  case generate_mip_maps img old new =>
    simp only [Cmd.declaresOnly, Bool.and_eq_true, decide_eq_true_eq] at hc
    refine ⟨by simp [Cmd.layoutUses, LayoutUse.mismatch, hc.1, hcur], ?_⟩
    intro j
    simp only [Cmd.applyLayout]
    split <;> simp [hc.2, hcur]
  all_goals exact ⟨rfl, hcur⟩

theorem layoutMismatches_of_declaresOnly {ι : Type} (same : ι → ι → Bool)
    (isColor : ι → Bool) (l : Layout) :
    ∀ (cmds : List (Cmd ι)) (cur : ι → Layout),
      cmds.all (Cmd.declaresOnly l) = true → (∀ j, cur j = l) →
        layoutMismatches same isColor cmds cur = [] := by
  intro cmds
  induction cmds with
  | nil => intro cur _ _; rfl
  | cons c cmds ih =>
    intro cur hall hcur
    simp only [List.all_cons, Bool.and_eq_true] at hall
    obtain ⟨h1, h2⟩ := layoutUses_of_declaresOnly same isColor l c cur hall.1 hcur
    have h3 := ih (Cmd.applyLayout same cur c) hall.2 h2
    simp only [layoutMismatches] at h3 ⊢
    simp only [layoutLog, List.filter_append, h1, h3, List.append_nil]

theorem maxLoop_declaresOnly_general (remaining : Nat) :
    ∀ level mipW mipH : Nat,
      (tone_mapping.maxLoop remaining level mipW mipH).all (Cmd.declaresOnly Layout.general)
        = true := by
  induction remaining with
  | zero => intro level mipW mipH; rfl
  | succ n ih =>
    intro level mipW mipH
    simp only [tone_mapping.maxLoop, List.all_append, ih, Bool.and_true]
    simp [tone_mapping.dispatch_and_sync_with_subsequent_compute, Cmd.declaresOnly]

/-- C18: from the entry layouts documented at `config()`, every layout declared
by a command of `render()` of `ambient_occlusion`, `reflections`, `tone_mapping`
and `anti_aliasing` (old layout of a transition, layout of a descriptor binding,
source or destination layout of a copy or blit) is the layout the image is in at
that point, for every value of the members.  Layouts are compared by what they
denote: the only declared layout written with another name than the layout
tracked for the image is the binding of `mSrcColor` in the step that applies the
occlusion factors, which names the generic `read_only_optimal` for a colour
image that is in `shader_read_only_optimal`. -/
theorem declared_layouts_match (ao : ambient_occlusion)
    (refl : reflections) (tone : tone_mapping) (taa : anti_aliasing) (frameId : Int) :
    layoutMismatches sameView AoImage.isColor ao.renderCommands ambient_occlusion.entryLayout
        = []
    ∧ layoutMismatches sameView ReflImage.isColor refl.renderCommands reflections.entryLayout
        = []
    ∧ layoutMismatches ToneImage.sameImage ToneImage.isColor tone.renderCommands
        tone_mapping.entryLayout = []
    ∧ layoutMismatches sameView TaaImage.isColor (taa.renderCommands frameId)
        anti_aliasing.entryLayout = []
    ∧ (layoutLog sameView ao.renderCommands ambient_occlusion.entryLayout).filter
          (fun u => decide (u.declared ≠ u.actual))
        = (if ao.mSsaoEnabled = true ∧ ao.mApplyOcclusionFactors ≠ 0 then
            [⟨AoImage.mSrcColor, Layout.read_only_optimal, Layout.shader_read_only_optimal,
              none⟩]
          else []) := by
  refine ⟨?_, ?_, ?_, ?_, ?_⟩
  · by_cases h1 : ao.mSsaoEnabled = true <;> by_cases h2 : ao.mBlurOcclusionFactors = 0 <;>
      by_cases h3 : ao.mApplyOcclusionFactors = 0 <;>
      simp [ambient_occlusion.renderCommands, ambient_occlusion.ssaoCommands,
        ambient_occlusion.blitCommands, ambient_occlusion.render,
        ambient_occlusion.entryLayout, layoutMismatches, LayoutUse.mismatch, Layout.resolve,
        AoImage.isColor, layoutLog, Cmd.layoutUses,
        bindingLayouts, Cmd.applyLayout, sameView, h1, h2, h3]
  · by_cases h1 : refl.mReflectionsEnabled = true <;> by_cases h2 : refl.mRtxOn.getD 0 = 0 <;>
      by_cases h3 : refl.mApplyReflections = 1 <;>
      by_cases h4 : refl.mRayTracingPipeline = true <;>
      simp [reflections.renderCommands, reflections.enabledCommands, reflections.ssrCommands,
        reflections.rtxCommands, reflections.render, reflections.entryLayout,
        layoutMismatches, LayoutUse.mismatch, Layout.resolve, ReflImage.isColor,
        layoutLog, Cmd.layoutUses, bindingLayouts, Cmd.applyLayout,
        sameView, h1, h2, h3, h4]
  · apply layoutMismatches_of_declaresOnly ToneImage.sameImage ToneImage.isColor
      Layout.general
    · by_cases h1 : tone.mUseMax = true <;>
        simp [tone_mapping.renderCommands, tone_mapping.recorded, tone_mapping.render,
          tone_mapping.dispatch_and_sync_with_subsequent_compute, Cmd.declaresOnly,
          maxLoop_declaresOnly_general, h1]
    · intro j; rfl
  · by_cases h1 : taa.mTaaEnabled = true <;> by_cases h2 : taa.historyIsValid frameId = true <;>
      simp [anti_aliasing.renderCommands, anti_aliasing.recorded, anti_aliasing.taaDispatch,
        anti_aliasing.copy_depth_image_into_history_image,
        anti_aliasing.copy_color_image_into_history_image, anti_aliasing.entryLayout,
        layoutMismatches, LayoutUse.mismatch, Layout.resolve, TaaImage.isColor,
        layoutLog, Cmd.layoutUses, bindingLayouts, Cmd.applyLayout,
        sameView, h1, h2]
  · by_cases h1 : ao.mSsaoEnabled = true <;> by_cases h2 : ao.mBlurOcclusionFactors = 0 <;>
      by_cases h3 : ao.mApplyOcclusionFactors = 0 <;>
      simp [ambient_occlusion.renderCommands, ambient_occlusion.ssaoCommands,
        ambient_occlusion.blitCommands, ambient_occlusion.render,
        ambient_occlusion.entryLayout, layoutLog, Cmd.layoutUses,
        bindingLayouts, Cmd.applyLayout, sameView, h1, h2, h3]

/-! ## Smoothed timing -/

theorem emaClosedForm_cons (a0 d0 : ℚ) (ds : List ℚ) :
    emaClosedForm (a0 * (9 / 10) + d0 * (1 / 10)) ds = emaClosedForm a0 (d0 :: ds) := by
  unfold emaClosedForm
  simp only [List.length_cons]
  rw [Finset.sum_range_succ']
  have hsum : ∑ i in Finset.range ds.length,
        (9 / 10 : ℚ) ^ (ds.length + 1 - 1 - (i + 1)) * (d0 :: ds).getD (i + 1) 0
      = ∑ i in Finset.range ds.length, (9 / 10 : ℚ) ^ (ds.length - 1 - i) * ds.getD i 0 := by
    apply Finset.sum_congr rfl
    intro i _
    have hexp : ds.length + 1 - 1 - (i + 1) = ds.length - 1 - i := by omega
    rw [hexp]
    simp
  rw [hsum]
  simp only [Nat.add_sub_cancel, Nat.sub_zero, List.getD_cons_zero]
  ring

theorem timingCalls_getElem? (aName : TimingLabel) (timestampPeriod : ℚ) :
    ∀ (queries : List (Nat × Nat)) (sIntervals : Intervals) (interval : TimingInterval),
      sIntervals aName = some interval → ∀ n, n < queries.length →
        (helpers.timingCalls aName timestampPeriod sIntervals queries).2[n]?
          = some (emaClosedForm interval.avgRendertime
              ((queries.take (n + 1)).map fun q => helpers.timingDelta q timestampPeriod)) := by
  intro queries
  induction queries with
  | nil => intro _ _ _ n hn; simp at hn
  | cons q qs ih =>
    intro sIntervals interval h n hn
    cases n with
    | zero =>
      simp [helpers.timingCalls, helpers.get_timing_interval_in_ms, h, emaClosedForm]
      ring
    | succ n =>
      have hn2 : n < qs.length := by simpa using hn
      have hNext : (helpers.get_timing_interval_in_ms sIntervals aName q timestampPeriod).1 aName
          = some ⟨q, interval.avgRendertime * (9 / 10)
              + helpers.timingDelta q timestampPeriod * (1 / 10)⟩ := by
        simp [helpers.get_timing_interval_in_ms, h]
      have := ih _ _ hNext n hn2
      simp only [helpers.timingCalls, List.getElem?_cons_succ, this, List.take_succ_cons,
        List.map_cons, emaClosedForm_cons]

/-- C15: over rationals, if the map holds the average `a_0` for a label, then
for every sequence of queried timestamp pairs, with `d_i` the sample computed
from the `i`-th pair, the call number `n + 1` of `get_timing_interval_in_ms` for
that label returns `0.9^(n+1) * a_0 + 0.1 * sum_{i<=n} 0.9^(n-i) * d_i`; a label
inserted by `add_timing_interval_and_get_query_pool` starts with `a_0 = 0`. -/
theorem get_timing_interval_closed_form (sIntervals : Intervals) (aName : TimingLabel)
    (interval : TimingInterval) (timestampPeriod : ℚ) (queries : List (Nat × Nat)) (n : Nat)
    (hLabel : sIntervals aName = some interval) (hn : n < queries.length) :
    (helpers.timingCalls aName timestampPeriod sIntervals queries).2[n]?
        = some (emaClosedForm interval.avgRendertime
            ((queries.take (n + 1)).map fun q => helpers.timingDelta q timestampPeriod))
    ∧ emaClosedForm interval.avgRendertime
          ((queries.take (n + 1)).map fun q => helpers.timingDelta q timestampPeriod)
        = (9 / 10) ^ (n + 1) * interval.avgRendertime
          + (1 / 10) * ∑ i in Finset.range (n + 1),
              (9 / 10) ^ (n - i) * helpers.timingDelta (queries.getD i (0, 0)) timestampPeriod
    ∧ ∀ (m : Intervals) (label : TimingLabel), m label = none →
        helpers.add_timing_interval_and_get_query_pool m label label = some ⟨(0, 0), 0⟩ := by
  refine ⟨timingCalls_getElem? aName timestampPeriod queries sIntervals interval hLabel n hn,
    ?_, ?_⟩
  · have hlen : (List.map (fun q => helpers.timingDelta q timestampPeriod)
        (List.take (n + 1) queries)).length = n + 1 := by
      simp; omega
    unfold emaClosedForm
    rw [hlen]
    congr 2
    apply Finset.sum_congr rfl
    intro i hi
    have hi2 : i < n + 1 := Finset.mem_range.mp hi
    have hi3 : i < queries.length := by omega
    simp only [Nat.add_sub_cancel]
    congr 1
    simp [List.getD_eq_getElem?_getD, List.getElem?_map, List.getElem?_take, hi2, hi3]
  · intro m label hm
    simp [helpers.add_timing_interval_and_get_query_pool, hm]

/-- Witness of C15: a new label, period 1, two queried timestamp pairs, second
call. -/
theorem get_timing_interval_closed_form_witness :
    (sampleIntervals ⟨"TAA", 0⟩ = some ⟨(0, 0), 0⟩
      ∧ 1 < [((0 : Nat), (1000000 : Nat)), (5, 3000005)].length)
    ∧ (helpers.timingCalls ⟨"TAA", 0⟩ 1 sampleIntervals [(0, 1000000), (5, 3000005)]).2[1]?
        = some (emaClosedForm (⟨(0, 0), 0⟩ : TimingInterval).avgRendertime
            (([((0 : Nat), (1000000 : Nat)), (5, 3000005)].take (1 + 1)).map
              fun q => helpers.timingDelta q 1))
    ∧ emaClosedForm (⟨(0, 0), 0⟩ : TimingInterval).avgRendertime
          (([((0 : Nat), (1000000 : Nat)), (5, 3000005)].take (1 + 1)).map
            fun q => helpers.timingDelta q 1)
        = (9 / 10) ^ (1 + 1) * (⟨(0, 0), 0⟩ : TimingInterval).avgRendertime
          + (1 / 10) * ∑ i in Finset.range (1 + 1),
              (9 / 10) ^ (1 - i)
                * helpers.timingDelta
                    ([((0 : Nat), (1000000 : Nat)), (5, 3000005)].getD i (0, 0)) 1
    ∧ ∀ (m : Intervals) (label : TimingLabel), m label = none →
        helpers.add_timing_interval_and_get_query_pool m label label = some ⟨(0, 0), 0⟩ :=
  ⟨⟨by simp [sampleIntervals, helpers.add_timing_interval_and_get_query_pool], by decide⟩,
    get_timing_interval_closed_form sampleIntervals ⟨"TAA", 0⟩ ⟨(0, 0), 0⟩ 1
      [(0, 1000000), (5, 3000005)] 1
      (by simp [sampleIntervals, helpers.add_timing_interval_and_get_query_pool])
      (by decide)⟩

/-! ## Luminance level views -/

theorem pushLevels_eq (v : LuminanceLevels) (avgLumImg maxLumImg : Nat) :
    ∀ mipLevels : Nat,
      v.pushLevels avgLumImg maxLumImg mipLevels
        = { mAvgLogLumLevels := v.mAvgLogLumLevels ++ levelViews avgLumImg mipLevels
            mMaxLogLumLevels := v.mMaxLogLumLevels ++ levelViews maxLumImg mipLevels } := by
  intro mipLevels
  induction mipLevels with
  | zero => simp [LuminanceLevels.pushLevels, levelViews]
  | succ n ih =>
    simp only [LuminanceLevels.pushLevels, levelViews] at ih ⊢
    simp [List.range_succ, List.foldl_append, ih]

/-- C20 (evaluation at the failing input): `config()` only appends.  Called on
empty vectors it leaves exactly one view per mip level of the images it created,
in level order; called a second time (images 11 and 12 with 3 levels, after
images 1 and 2 with 3 levels) it leaves 6 views in each vector, `front()` is
level 0 of the image of the first call and the views of the new image come
after the old ones.  The swapchain-changed handler of `initialize()` clears the
vectors first and leaves exactly the views of the images it created. -/
theorem tone_mapping_config_appends_levels :
    (∀ (v : LuminanceLevels) (avgLumImg maxLumImg mipLevels : Nat),
      tone_mapping.config v avgLumImg maxLumImg mipLevels
        = { mAvgLogLumLevels := v.mAvgLogLumLevels ++ levelViews avgLumImg mipLevels
            mMaxLogLumLevels := v.mMaxLogLumLevels ++ levelViews maxLumImg mipLevels })
    ∧ (∀ avgLumImg maxLumImg mipLevels : Nat,
      tone_mapping.config {} avgLumImg maxLumImg mipLevels
        = { mAvgLogLumLevels := levelViews avgLumImg mipLevels
            mMaxLogLumLevels := levelViews maxLumImg mipLevels })
    ∧ (tone_mapping.config (tone_mapping.config {} 1 2 3) 11 12 3).mAvgLogLumLevels
        = [⟨1, 0⟩, ⟨1, 1⟩, ⟨1, 2⟩, ⟨11, 0⟩, ⟨11, 1⟩, ⟨11, 2⟩]
    ∧ (tone_mapping.config (tone_mapping.config {} 1 2 3) 11 12 3).mMaxLogLumLevels
        = [⟨2, 0⟩, ⟨2, 1⟩, ⟨2, 2⟩, ⟨12, 0⟩, ⟨12, 1⟩, ⟨12, 2⟩]
    ∧ (tone_mapping.config (tone_mapping.config {} 1 2 3) 11 12 3).mAvgLogLumLevels
        ≠ levelViews 11 3
    ∧ (tone_mapping.config (tone_mapping.config {} 1 2 3) 11 12 3).mAvgLogLumLevels.head?
        = some ⟨1, 0⟩
    ∧ (∀ (v : LuminanceLevels) (avgLumImg maxLumImg mipLevels : Nat),
      tone_mapping.swapchain_changed v avgLumImg maxLumImg mipLevels
        = { mAvgLogLumLevels := levelViews avgLumImg mipLevels
            mMaxLogLumLevels := levelViews maxLumImg mipLevels }) := by
  refine ⟨?_, ?_, by decide, by decide, by decide, by decide, ?_⟩
  · intro v a m n
    exact pushLevels_eq v a m n
  · intro a m n
    simpa using pushLevels_eq {} a m n
  · intro v a m n
    simpa [tone_mapping.swapchain_changed] using pushLevels_eq {} a m n

/-! ## Rewiring on resize -/

theorem swapchain_changed_passes (s : assignment4) (c : assignment4.Creations)
    (h : (s.swapchain_changed c).2 = true) :
    (s.swapchain_changed c).1.passes
      = assignment4.handlerConfig.map (s.swapchain_changed c).1.resolve := by
  revert h
  unfold assignment4.swapchain_changed
  repeat' split
  all_goals
    intro h
    first
      | (simp at h; done)
      | rfl

theorem swapchain_changed_failed (s : assignment4) (c : assignment4.Creations)
    (h : (s.swapchain_changed c).2 = false) :
    (s.swapchain_changed c).1.mFramebuffer = s.mFramebuffer
    ∧ (s.swapchain_changed c).1.mImageViewSrgb = s.mImageViewSrgb
    ∧ (s.swapchain_changed c).1.passes = s.passes := by
  revert h
  unfold assignment4.swapchain_changed
  repeat' split
  all_goals
    intro h
    first
      | (simp at h; done)
      | exact ⟨rfl, rfl, rfl⟩

/-- C12: by role, the `config()` calls of the swapchain-changed handler pass
the same images, transfer types and layouts as those of
`assignment4::initialize()`; the destination of each pass is the source color of
the next; and after each of two handler runs in a row the five passes hold
exactly the current image of each role of that same wiring, as they do after
`initialize()`. -/
theorem handler_rewires_like_initialize (s : assignment4) (c1 c2 : assignment4.Creations)
    (h1 : (s.swapchain_changed c1).2 = true)
    (h2 : ((s.swapchain_changed c1).1.swapchain_changed c2).2 = true) :
    assignment4.handlerConfig = assignment4.initialConfig
    ∧ (assignment4.initialConfig.mAmbientOcclusion.aDestinationImageView
          = assignment4.initialConfig.mReflections.aSourceColor
      ∧ assignment4.initialConfig.mReflections.aDestinationImageView
          = assignment4.initialConfig.mToneMapping.aSourceHdr
      ∧ assignment4.initialConfig.mToneMapping.aDestinationLdr
          = assignment4.initialConfig.mAntiAliasing.aSourceColorImageView
      ∧ assignment4.initialConfig.mAntiAliasing.aDestinationImageView
          = assignment4.initialConfig.mTransferToSwapchain.aSourceColor)
    ∧ (∀ (fb : Nat) (hdr ldr : Nat × Nat) (srgb : Nat),
        (assignment4.initialized fb hdr ldr srgb).passes
          = assignment4.initialConfig.map (assignment4.initialized fb hdr ldr srgb).resolve)
    ∧ (s.swapchain_changed c1).1.passes
        = assignment4.initialConfig.map (s.swapchain_changed c1).1.resolve
    ∧ ((s.swapchain_changed c1).1.swapchain_changed c2).1.passes
        = assignment4.initialConfig.map
            ((s.swapchain_changed c1).1.swapchain_changed c2).1.resolve := by
  have hEq : assignment4.handlerConfig = assignment4.initialConfig := rfl
  refine ⟨hEq, ⟨rfl, rfl, rfl, rfl⟩, fun _ _ _ _ => rfl, ?_, ?_⟩
  · rw [← hEq]; exact swapchain_changed_passes s c1 h1
  · rw [← hEq]; exact swapchain_changed_passes _ c2 h2

/-- Witness of C12: two resizes in a row after `initialize()`, every creation
succeeding. -/
theorem handler_rewires_like_initialize_witness :
    ((sampleAssignment4.swapchain_changed sampleCreations).2 = true
      ∧ ((sampleAssignment4.swapchain_changed sampleCreations).1.swapchain_changed
          sampleCreationsAgain).2 = true)
    ∧ assignment4.handlerConfig = assignment4.initialConfig
    ∧ (assignment4.initialConfig.mAmbientOcclusion.aDestinationImageView
          = assignment4.initialConfig.mReflections.aSourceColor
      ∧ assignment4.initialConfig.mReflections.aDestinationImageView
          = assignment4.initialConfig.mToneMapping.aSourceHdr
      ∧ assignment4.initialConfig.mToneMapping.aDestinationLdr
          = assignment4.initialConfig.mAntiAliasing.aSourceColorImageView
      ∧ assignment4.initialConfig.mAntiAliasing.aDestinationImageView
          = assignment4.initialConfig.mTransferToSwapchain.aSourceColor)
    ∧ (∀ (fb : Nat) (hdr ldr : Nat × Nat) (srgb : Nat),
        (assignment4.initialized fb hdr ldr srgb).passes
          = assignment4.initialConfig.map (assignment4.initialized fb hdr ldr srgb).resolve)
    ∧ (sampleAssignment4.swapchain_changed sampleCreations).1.passes
        = assignment4.initialConfig.map
            (sampleAssignment4.swapchain_changed sampleCreations).1.resolve
    ∧ ((sampleAssignment4.swapchain_changed sampleCreations).1.swapchain_changed
          sampleCreationsAgain).1.passes
        = assignment4.initialConfig.map
            ((sampleAssignment4.swapchain_changed sampleCreations).1.swapchain_changed
              sampleCreationsAgain).1.resolve :=
  ⟨⟨by decide, by decide⟩,
    handler_rewires_like_initialize sampleAssignment4 sampleCreations sampleCreationsAgain
      (by decide) (by decide)⟩

theorem hazardCheck_sound {ι : Type} [DecidableEq ι] (same : ι → ι → Bool) :
    ∀ (tr : List (Step ι)) (pending : List (Res ι)), hazardCheck same pending tr = true →
      (∀ (j : Nat) (b : Step ι), tr[j]? = some b → ∀ p ∈ pending,
          ∀ r' ∈ b.reads ++ b.writes, p.overlaps same r' = true →
            ∃ (k : Nat) (c : Step ι), k < j ∧ tr[k]? = some c ∧ covers same c.cmd p = true)
      ∧ HazardFreeSteps same tr := by
  intro tr
  induction tr with
  | nil =>
    intro pending _
    refine ⟨?_, ?_⟩
    · intro j b hj; simp at hj
    · intro i j a b _ hi; simp at hi
  | cons st rest ih =>
    intro pending h
    simp only [hazardCheck, Bool.and_eq_true, Bool.not_eq_true'] at h
    obtain ⟨hNo, hRest⟩ := h
    obtain ⟨ih1, ih2⟩ := ih _ hRest
    refine ⟨?_, ?_⟩
    · intro j b hj p hp r' hr' hov
      cases j with
      | zero =>
        simp only [List.getElem?_cons_zero, Option.some.injEq] at hj
        subst hj
        have hAny : (pending.any fun p =>
            (st.reads ++ st.writes).any fun r => p.overlaps same r) = true :=
          List.any_eq_true.mpr ⟨p, hp, List.any_eq_true.mpr ⟨r', hr', hov⟩⟩
        rw [hNo] at hAny
        cases hAny
      | succ j =>
        simp only [List.getElem?_cons_succ] at hj
        by_cases hc : covers same st.cmd p = true
        · exact ⟨0, st, Nat.succ_pos _, by simp, hc⟩
        · have hp2 : p ∈ (pending.filter fun p => !covers same st.cmd p) ++ st.writes :=
            List.mem_append_left _ (List.mem_filter.mpr ⟨hp, by simpa using hc⟩)
          obtain ⟨k, c, hk, hkc, hcov⟩ := ih1 j b hj p hp2 r' hr' hov
          exact ⟨k + 1, c, Nat.succ_lt_succ hk, by simpa using hkc, hcov⟩
    · intro i j a b hij hi hj r hr r' hr' hov
      cases j with
      | zero => omega
      | succ j =>
        simp only [List.getElem?_cons_succ] at hj
        cases i with
        | zero =>
          simp only [List.getElem?_cons_zero, Option.some.injEq] at hi
          subst hi
          have hp2 : r ∈ (pending.filter fun p => !covers same st.cmd p) ++ st.writes :=
            List.mem_append_right _ hr
          obtain ⟨k, c, hk, hkc, hcov⟩ := ih1 j b hj r hp2 r' hr' hov
          exact ⟨k + 1, c, Nat.succ_pos _, Nat.succ_lt_succ hk, by simpa using hkc, hcov⟩
        | succ i =>
          simp only [List.getElem?_cons_succ] at hi
          obtain ⟨k, c, hik, hkj, hkc, hcov⟩ :=
            ih2 i j a b (by omega) hi hj r hr r' hr' hov
          exact ⟨k + 1, c, by omega, by omega, by simpa using hkc, hcov⟩

theorem hazardFree_of_check {ι : Type} [DecidableEq ι] (same : ι → ι → Bool)
    (cmds : List (Cmd ι)) (h : hazardCheck same [] (stepsFrom [] cmds) = true) :
    HazardFree same cmds :=
  (hazardCheck_sound same (stepsFrom [] cmds) [] h).2

theorem stepsFrom_append {ι : Type} (ys : List (Cmd ι)) :
    ∀ (xs : List (Cmd ι)) (bound : List (Binding ι)),
      stepsFrom bound (xs ++ ys) = stepsFrom bound xs ++ stepsFrom (boundAfter bound xs) ys := by
  intro xs
  induction xs with
  | nil => intro bound; rfl
  | cons x xs ih =>
    intro bound
    cases x <;> simp [stepsFrom, boundAfter, ih]

theorem hazardCheck_append {ι : Type} [DecidableEq ι] (same : ι → ι → Bool)
    (ys : List (Step ι)) :
    ∀ (xs : List (Step ι)) (pending : List (Res ι)),
      hazardCheck same pending (xs ++ ys)
        = (hazardCheck same pending xs && hazardCheck same (pendingAfter same pending xs) ys) := by
  intro xs
  induction xs with
  | nil => intro pending; simp [hazardCheck, pendingAfter]
  | cons x xs ih =>
    intro pending
    simp [hazardCheck, pendingAfter, ih, Bool.and_assoc]

theorem maxLoop_hazardCheck (same : ToneImage → ToneImage → Bool) (remaining : Nat) :
    ∀ (level mipW mipH : Nat) (bound : List (Binding ToneImage)),
      hazardCheck same [] (stepsFrom bound (tone_mapping.maxLoop remaining level mipW mipH))
          = true
      ∧ pendingAfter same [] (stepsFrom bound (tone_mapping.maxLoop remaining level mipW mipH))
          = [] := by
  induction remaining with
  | zero => intro level mipW mipH bound; exact ⟨rfl, rfl⟩
  | succ n ih =>
    intro level mipW mipH bound
    obtain ⟨h1, h2⟩ := ih (level + 1) (mipW / 2) (mipH / 2)
      [ Binding.sampled_image 0 0 (ToneImage.mMaxLogLumLevels (level - 1)) Layout.general,
        Binding.storage_image 0 1 (ToneImage.mMaxLogLumLevels level) Layout.general ]
    simp only [tone_mapping.maxLoop, tone_mapping.dispatch_and_sync_with_subsequent_compute,
      List.cons_append, List.nil_append, stepsFrom, hazardCheck, pendingAfter, covers,
      List.any_nil, List.filter_nil, List.nil_append, Bool.not_false, Bool.true_and,
      List.filter_eq_nil_iff]
    refine ⟨?_, ?_⟩
    · simpa [covers, readsOf, writesOf, storageImages, sampledImages, boundResources] using h1
    · simpa [covers, readsOf, writesOf, storageImages, sampledImages, boundResources] using h2

theorem hazardCheck_parts {ι : Type} [DecidableEq ι] (same : ι → ι → Bool)
    (pending : List (Res ι)) (bound : List (Binding ι)) (xs ys : List (Cmd ι))
    (hx : hazardCheck same pending (stepsFrom bound xs) = true)
    (hp : pendingAfter same pending (stepsFrom bound xs) = [])
    (hy : ∀ b, hazardCheck same [] (stepsFrom b ys) = true) :
    hazardCheck same pending (stepsFrom bound (xs ++ ys)) = true := by
  rw [stepsFrom_append, hazardCheck_append, hx, hp, hy]
  rfl

theorem tone_hazardCheck (tone : tone_mapping) :
    hazardCheck ToneImage.sameImage [] (stepsFrom [] tone.renderCommands) = true := by
  unfold tone_mapping.renderCommands tone_mapping.recorded
  simp only [List.append_assoc, tone_mapping.render]
  refine hazardCheck_parts _ _ _ _ _ ?_ ?_ ?_
  · simp only [stepsFrom, readsOf, writesOf, storageImages, sampledImages, boundResources,
      List.filterMap_cons, List.filterMap_nil, List.map_cons, List.map_nil,
      List.cons_append, List.nil_append, List.filter_cons, List.filter_nil, shaderWritten,
      String.reduceEq, decide_False, decide_True, reduceIte, Bool.false_eq_true]
    simp only [hazardCheck, covers, Res.overlaps, ToneImage.sameImage, List.any_cons,
      List.any_nil, List.filter_cons, List.filter_nil, List.cons_append, List.nil_append,
      List.append_nil, reduceCtorEq, decide_False, decide_True, Bool.or_false,
      Bool.not_false, Bool.not_true, Bool.and_true, Bool.true_and, reduceIte,
      Bool.or_self, Bool.false_eq_true, Bool.and_self, String.reduceEq]
  · simp only [stepsFrom, readsOf, writesOf, storageImages, sampledImages, boundResources,
      List.filterMap_cons, List.filterMap_nil, List.map_cons, List.map_nil,
      List.cons_append, List.nil_append, List.filter_cons, List.filter_nil, shaderWritten,
      String.reduceEq, decide_False, decide_True, reduceIte, Bool.false_eq_true]
    simp only [pendingAfter, covers, ToneImage.sameImage, List.filter_cons, List.filter_nil,
      List.cons_append, List.nil_append, List.append_nil, Bool.not_false, Bool.not_true,
      reduceIte, Bool.false_eq_true]
  · intro b
    refine hazardCheck_parts _ _ _ _ _ ?_ ?_ ?_
    · by_cases h1 : tone.mUseMax = true
      · simp only [h1, reduceIte, stepsFrom, readsOf, writesOf, hazardCheck, List.any_nil,
          Bool.not_false, Bool.true_and, List.filter_nil, List.nil_append]
        exact (maxLoop_hazardCheck _ _ _ _ _ _).1
      · simp only [h1, reduceIte, Bool.false_eq_true, stepsFrom, hazardCheck]
    · by_cases h1 : tone.mUseMax = true
      · simp only [h1, reduceIte, stepsFrom, readsOf, writesOf, pendingAfter,
          List.filter_nil, List.nil_append]
        exact (maxLoop_hazardCheck _ _ _ _ _ _).2
      · simp only [h1, reduceIte, Bool.false_eq_true, stepsFrom, pendingAfter]
    · intro b2
      simp only [tone_mapping.dispatch_and_sync_with_subsequent_compute, List.cons_append,
        List.nil_append]
      simp only [stepsFrom, readsOf, writesOf, storageImages, sampledImages, boundResources,
        List.filterMap_cons, List.filterMap_nil, List.map_cons, List.map_nil,
        List.cons_append, List.nil_append, List.filter_cons, List.filter_nil, shaderWritten,
        String.reduceEq, decide_False, decide_True, reduceIte, Bool.false_eq_true]
      simp only [hazardCheck, covers, Res.overlaps, List.any_cons, List.any_nil,
        List.filter_cons, List.filter_nil, List.cons_append, List.nil_append,
        List.append_nil, reduceCtorEq, decide_False, decide_True, Bool.or_false,
        Bool.not_false, Bool.not_true, Bool.and_true, Bool.true_and, reduceIte,
        Bool.or_self, Bool.false_eq_true, Bool.and_self, String.reduceEq]

theorem ao_hazardCheck (ao : ambient_occlusion) :
    hazardCheck sameView [] (stepsFrom [] ao.renderCommands) = true := by
  by_cases h1 : ao.mSsaoEnabled = true <;> by_cases h2 : ao.mBlurOcclusionFactors = 0 <;>
    by_cases h3 : ao.mApplyOcclusionFactors = 0 <;>
    (simp only [ambient_occlusion.renderCommands, ambient_occlusion.ssaoCommands,
        ambient_occlusion.blitCommands, ambient_occlusion.render, h1, h2, h3,
        ne_eq, not_true, not_false_eq_true, reduceIte, List.append_assoc, List.cons_append,
        List.nil_append, List.append_nil, Bool.false_eq_true]
     simp only [stepsFrom, readsOf, writesOf, storageImages, sampledImages, boundResources,
        List.filterMap_cons, List.filterMap_nil, List.map_cons, List.map_nil,
        List.cons_append, List.nil_append, List.filter_cons, List.filter_nil, shaderWritten,
        String.reduceEq, decide_False, decide_True, reduceIte, Bool.false_eq_true]
     simp only [hazardCheck, covers, Res.overlaps, sameView, List.any_cons, List.any_nil,
        List.filter_cons, List.filter_nil, List.cons_append, List.nil_append,
        List.append_nil, reduceCtorEq, decide_False, decide_True, Bool.or_false,
        Bool.not_false, Bool.not_true, Bool.and_true, Bool.true_and, reduceIte,
        Bool.or_self, Bool.false_eq_true, Bool.and_self, Res.view.injEq, String.reduceEq])

theorem refl_hazardCheck (refl : reflections) :
    hazardCheck sameView [] (stepsFrom [] refl.renderCommands) = true := by
  by_cases h1 : refl.mReflectionsEnabled = true <;> by_cases h2 : refl.mRtxOn.getD 0 = 0 <;>
    by_cases h3 : refl.mApplyReflections = 1 <;>
    by_cases h4 : refl.mRayTracingPipeline = true <;>
    (simp only [reflections.renderCommands, reflections.enabledCommands,
        reflections.ssrCommands, reflections.rtxCommands, reflections.render, h1, h2, h3, h4,
        ne_eq, not_true, not_false_eq_true, reduceIte, List.append_assoc, List.cons_append,
        List.nil_append, List.append_nil, Bool.false_eq_true]
     simp only [stepsFrom, readsOf, writesOf, storageImages, sampledImages, boundResources,
        List.filterMap_cons, List.filterMap_nil, List.map_cons, List.map_nil,
        List.cons_append, List.nil_append, List.filter_cons, List.filter_nil, shaderWritten,
        String.reduceEq, decide_False, decide_True, reduceIte, Bool.false_eq_true]
     simp only [hazardCheck, covers, Res.overlaps, sameView, List.any_cons, List.any_nil,
        List.filter_cons, List.filter_nil, List.cons_append, List.nil_append,
        List.append_nil, reduceCtorEq, decide_False, decide_True, Bool.or_false,
        Bool.not_false, Bool.not_true, Bool.and_true, Bool.true_and, reduceIte,
        Bool.or_self, Bool.false_eq_true, Bool.and_self, Res.view.injEq, String.reduceEq])

theorem taa_hazardCheck (taa : anti_aliasing) (frameId : Int) :
    hazardCheck sameView [] (stepsFrom [] (taa.renderCommands frameId)) = true := by
  by_cases h1 : taa.mTaaEnabled = true <;> by_cases h2 : taa.historyIsValid frameId = true <;>
    (simp only [anti_aliasing.renderCommands, anti_aliasing.recorded,
        anti_aliasing.taaDispatch, anti_aliasing.copy_depth_image_into_history_image,
        anti_aliasing.copy_color_image_into_history_image, h1, h2,
        ne_eq, not_true, not_false_eq_true, reduceIte, List.append_assoc, List.cons_append,
        List.nil_append, List.append_nil, Bool.false_eq_true]
     simp only [stepsFrom, readsOf, writesOf, storageImages, sampledImages, boundResources,
        List.filterMap_cons, List.filterMap_nil, List.map_cons, List.map_nil,
        List.cons_append, List.nil_append, List.filter_cons, List.filter_nil, shaderWritten,
        String.reduceEq, decide_False, decide_True, reduceIte, Bool.false_eq_true]
     simp only [hazardCheck, covers, Res.overlaps, sameView, List.any_cons, List.any_nil,
        List.filter_cons, List.filter_nil, List.cons_append, List.nil_append,
        List.append_nil, reduceCtorEq, decide_False, decide_True, Bool.or_false,
        Bool.not_false, Bool.not_true, Bool.and_true, Bool.true_and, reduceIte,
        Bool.or_self, Bool.false_eq_true, Bool.and_self, Res.view.injEq, String.reduceEq])

/-- C19: within the command list recorded by one `render()` of
`ambient_occlusion`, `reflections`, `tone_mapping` or `anti_aliasing`, for every
value of the members (flags, extent, number of luminance mip levels): whenever
a dispatch, ray-tracing launch, copy, blit or mip-map generation writes an image
or buffer and a later command of the list reads or writes that resource, a
global memory barrier or an image memory barrier on that image is recorded
between the two. -/
theorem render_is_hazard_free (ao : ambient_occlusion) (refl : reflections)
    (tone : tone_mapping) (taa : anti_aliasing) (frameId : Int) :
    HazardFree sameView ao.renderCommands
    ∧ HazardFree sameView refl.renderCommands
    ∧ HazardFree ToneImage.sameImage tone.renderCommands
    ∧ HazardFree sameView (taa.renderCommands frameId) :=
  ⟨hazardFree_of_check _ _ (ao_hazardCheck ao), hazardFree_of_check _ _ (refl_hazardCheck refl),
    hazardFree_of_check _ _ (tone_hazardCheck tone),
    hazardFree_of_check _ _ (taa_hazardCheck taa frameId)⟩

/-! ## Projection matrix of the camera -/

/-- C21: whatever the projection matrix `P` of the camera when
`save_view_matrix_and_modify_projection_matrix()` is called, and whether TAA is
enabled or not, the call stores `P` in `mProjMatrixToRestore` and the last
statement of the following `render()` sets the projection matrix of the camera
to `P` again; with TAA disabled the matrix that the call sets on the camera is
`P` itself. -/
theorem projection_matrix_restored {μ : Type} (translate : ℚ × ℚ → μ → μ) (s : anti_aliasing)
    (m : TaaMatrices μ) (camera : quake_camera μ) (current_frame : Int) :
    (anti_aliasing.renderCamera
        (s.save_view_matrix_and_modify_projection_matrix translate m camera current_frame).1
        (s.save_view_matrix_and_modify_projection_matrix translate m camera
          current_frame).2).projection_matrix
      = camera.projection_matrix
    ∧ (s.save_view_matrix_and_modify_projection_matrix translate m camera
          current_frame).1.mProjMatrixToRestore = camera.projection_matrix
    ∧ (anti_aliasing.save_view_matrix_and_modify_projection_matrix translate
          { s with mTaaEnabled := false } m camera current_frame).2.projection_matrix
        = camera.projection_matrix
    ∧ (s.save_view_matrix_and_modify_projection_matrix translate m camera
          current_frame).2.projection_matrix
        = (if s.mTaaEnabled then translate (0, 0) camera.projection_matrix
           else camera.projection_matrix) := by
  refine ⟨rfl, rfl, ?_, ?_⟩
  · simp [anti_aliasing.save_view_matrix_and_modify_projection_matrix,
      anti_aliasing.get_jittered_projection_matrix]
  · simp [anti_aliasing.save_view_matrix_and_modify_projection_matrix,
      anti_aliasing.get_jittered_projection_matrix, anti_aliasing.get_jitter_offset_for_frame]

/-! ## Work group count -/

/-- C22: for every extent `w` with `w + 15 < 2^32`, the 32-bit value
`(w + 15u) / 16u` is `(w + 15) / 16`, it is the least `g` with `16 * g >= w`, and
`16 * g < w + 16`: the groups cover all `w` texels and the last group starts
inside the image. -/
theorem groupCount_is_ceiling (w : Nat) (hw : w + 15 < 2 ^ 32) :
    groupCount w = (w + 15) / 16
    ∧ w ≤ 16 * groupCount w
    ∧ (∀ g : Nat, w ≤ 16 * g → groupCount w ≤ g)
    ∧ 16 * groupCount w < w + 16 := by
  have h : groupCount w = (w + 15) / 16 := by
    unfold groupCount
    rw [Nat.mod_eq_of_lt hw]
  rw [h]
  refine ⟨rfl, ?_, ?_, ?_⟩
  · omega
  · intro g hg; omega
  · omega

/-- Witness of C22: an extent of 1920 texels takes 120 groups. -/
theorem groupCount_is_ceiling_witness :
    (1920 + 15 < 2 ^ 32)
    ∧ groupCount 1920 = (1920 + 15) / 16
    ∧ 1920 ≤ 16 * groupCount 1920
    ∧ (∀ g : Nat, 1920 ≤ 16 * g → groupCount 1920 ≤ g)
    ∧ 16 * groupCount 1920 < 1920 + 16 :=
  ⟨by norm_num, groupCount_is_ceiling 1920 (by norm_num)⟩

/-! ## Max reduction over the mip levels -/

theorem maxLoop_eq_maxReductionFrom (w h : Nat) (count : Nat) :
    ∀ first k : Nat, 1 ≤ first → k + 1 = first →
      tone_mapping.maxLoop count first (w / 2 ^ k) (h / 2 ^ k)
        = maxReductionFrom w h count first := by
  induction count with
  | zero => intro first k _ _; rfl
  | succ n ih =>
    intro first k h1 hk
    have hw : w / 2 ^ k / 2 = w / 2 ^ first := by
      rw [Nat.div_div_eq_div_mul, ← hk, pow_succ]
    have hh : h / 2 ^ k / 2 = h / 2 ^ first := by
      rw [Nat.div_div_eq_div_mul, ← hk, pow_succ]
    simp only [tone_mapping.maxLoop, maxReductionFrom, maxReductionLevel,
      tone_mapping.dispatch_and_sync_with_subsequent_compute, hw, hh]
    rw [ih (first + 1) first (by omega) rfl]
    simp

theorem maxReductionFrom_level (w h : Nat) (count : Nat) :
    ∀ first level : Nat, first ≤ level → level < first + count →
      ∃ before after : List (Cmd ToneImage),
        maxReductionFrom w h count first = before ++ maxReductionLevel w h level ++ after := by
  induction count with
  | zero => intro first level h1 h2; omega
  | succ n ih =>
    intro first level h1 h2
    by_cases heq : level = first
    · subst heq
      exact ⟨[], maxReductionFrom w h n (level + 1), by simp [maxReductionFrom]⟩
    · obtain ⟨before, after, hEq⟩ := ih (first + 1) level (by omega) (by omega)
      exact ⟨maxReductionLevel w h first ++ before, after, by
        simp [maxReductionFrom, hEq, List.append_assoc]⟩

/-- C23: with `mUseMax` set, `render()` of `tone_mapping` records, after binding
`mMaxPipeline`, the max reduction for the levels 1, 2, ..., `levels - 1` in this
order; for each such level `L` it binds level `L - 1` as input and level `L` as
output, dispatches for `max(1, floor(w / 2^L))` x `max(1, floor(h / 2^L))` texels
and records a compute-to-compute barrier before the next level. -/
theorem tone_mapping_max_reduction (s : tone_mapping) (hUseMax : s.mUseMax = true) :
    tone_mapping.maxLoop (s.levels - 1) 1 s.width s.height
        = maxReduction s.width s.height s.levels
    ∧ (∃ before after : List (Cmd ToneImage),
        s.renderCommands
          = before ++ Cmd.bind_pipeline "mMaxPipeline"
              :: maxReduction s.width s.height s.levels ++ after)
    ∧ (∀ level : Nat, 1 ≤ level → level < s.levels →
        ∃ before after : List (Cmd ToneImage),
          maxReduction s.width s.height s.levels
            = before ++ maxReductionLevel s.width s.height level ++ after) := by
  have hLoop : tone_mapping.maxLoop (s.levels - 1) 1 s.width s.height
      = maxReduction s.width s.height s.levels := by
    have := maxLoop_eq_maxReductionFrom s.width s.height (s.levels - 1) 1 0 (by omega) rfl
    simpa [maxReduction] using this
  refine ⟨hLoop, ?_, ?_⟩
  · simp only [tone_mapping.renderCommands, tone_mapping.recorded, tone_mapping.render,
      hUseMax, if_true, hLoop, List.append_assoc]
    exact ⟨_, _, rfl⟩
  · intro level h1 h2
    exact maxReductionFrom_level s.width s.height (s.levels - 1) 1 level h1 (by omega)

/-- Witness of C23: the members after construction, five mip levels. -/
theorem tone_mapping_max_reduction_witness :
    (sampleTone.mUseMax = true)
    ∧ tone_mapping.maxLoop (sampleTone.levels - 1) 1 sampleTone.width sampleTone.height
        = maxReduction sampleTone.width sampleTone.height sampleTone.levels
    ∧ (∃ before after : List (Cmd ToneImage),
        sampleTone.renderCommands
          = before ++ Cmd.bind_pipeline "mMaxPipeline"
              :: maxReduction sampleTone.width sampleTone.height sampleTone.levels ++ after)
    ∧ (∀ level : Nat, 1 ≤ level → level < sampleTone.levels →
        ∃ before after : List (Cmd ToneImage),
          maxReduction sampleTone.width sampleTone.height sampleTone.levels
            = before ++ maxReductionLevel sampleTone.width sampleTone.height level ++ after) :=
  ⟨rfl, tone_mapping_max_reduction sampleTone rfl⟩

/-! ## Tick difference -/

/-- C24: if the stored timestamps are the low 32 bits of counter values
`T0 <= T1` with `T1 - T0 < 2^32`, the 32-bit difference computed by
`get_timing_interval_in_ms` is `T1 - T0`, also when the low 32 bits wrapped in
between, and the sample is that difference times the timestamp period divided
by 1000000; for a non-negative period no sample is negative, whatever the
timestamps. -/
theorem tick_difference_survives_wrap (T0 T1 : Nat) (timestampPeriod : ℚ) (h01 : T0 ≤ T1)
    (hlt : T1 - T0 < 2 ^ 32) (hPeriod : 0 ≤ timestampPeriod) :
    helpers.tickDifference (T0 % 2 ^ 32, T1 % 2 ^ 32) = T1 - T0
    ∧ helpers.timingDelta (T0 % 2 ^ 32, T1 % 2 ^ 32) timestampPeriod
        = ((T1 - T0 : Nat) : ℚ) * timestampPeriod / 1000000
    ∧ 0 ≤ helpers.timingDelta (T0 % 2 ^ 32, T1 % 2 ^ 32) timestampPeriod
    ∧ (∀ timestamps : Nat × Nat,
        helpers.timingDelta timestamps timestampPeriod
          = (helpers.tickDifference timestamps : ℚ) * timestampPeriod / 1000000
        ∧ 0 ≤ helpers.timingDelta timestamps timestampPeriod) := by
  have hpow : (2 : Nat) ^ 32 = 4294967296 := by norm_num
  have hd : helpers.tickDifference (T0 % 2 ^ 32, T1 % 2 ^ 32) = T1 - T0 := by
    simp only [helpers.tickDifference, hpow] at hlt ⊢
    omega
  have hgen : ∀ timestamps : Nat × Nat,
      helpers.timingDelta timestamps timestampPeriod
        = (helpers.tickDifference timestamps : ℚ) * timestampPeriod / 1000000 := fun _ => rfl
  have hnn : ∀ timestamps : Nat × Nat, 0 ≤ helpers.timingDelta timestamps timestampPeriod := by
    intro ts
    rw [hgen]
    positivity
  refine ⟨hd, ?_, hnn _, fun ts => ⟨hgen ts, hnn ts⟩⟩
  rw [hgen, hd]

/-- Witness of C24: the counter goes from `2^32 - 5` to `2^32 + 7`, so the stored
low 32 bits go from `2^32 - 5` down to 7; period 1. -/
theorem tick_difference_survives_wrap_witness :
    (2 ^ 32 - 5 ≤ 2 ^ 32 + 7 ∧ (2 ^ 32 + 7) - (2 ^ 32 - 5) < 2 ^ 32 ∧ (0 : ℚ) ≤ 1)
    ∧ helpers.tickDifference ((2 ^ 32 - 5) % 2 ^ 32, (2 ^ 32 + 7) % 2 ^ 32)
        = (2 ^ 32 + 7) - (2 ^ 32 - 5)
    ∧ helpers.timingDelta ((2 ^ 32 - 5) % 2 ^ 32, (2 ^ 32 + 7) % 2 ^ 32) 1
        = (((2 ^ 32 + 7) - (2 ^ 32 - 5) : Nat) : ℚ) * 1 / 1000000
    ∧ 0 ≤ helpers.timingDelta ((2 ^ 32 - 5) % 2 ^ 32, (2 ^ 32 + 7) % 2 ^ 32) 1
    ∧ (∀ timestamps : Nat × Nat,
        helpers.timingDelta timestamps 1
          = (helpers.tickDifference timestamps : ℚ) * 1 / 1000000
        ∧ 0 ≤ helpers.timingDelta timestamps 1) :=
  ⟨⟨by norm_num, by norm_num, by norm_num⟩,
    tick_difference_survives_wrap (2 ^ 32 - 5) (2 ^ 32 + 7) 1 (by norm_num) (by norm_num)
      (by norm_num)⟩

/-! ## Active lights -/

theorem activeFrom_negative (limit : Int) (hneg : limit < 0) :
    ∀ (entries : List (lightsource × Bool)) (countPL : Int),
      lights_editor.activeFrom limit countPL entries
        = (entries.filter fun e => e.2).map fun e => e.1 := by
  intro entries
  induction entries with
  | nil => intro _; rfl
  | cons e rest ih =>
    intro countPL
    obtain ⟨light, enabled⟩ := e
    have hn : ¬ (0 ≤ limit) := by omega
    cases enabled <;> simp [lights_editor.activeFrom, hn, ih]

theorem activeFrom_others (limit : Int) :
    ∀ (entries : List (lightsource × Bool)) (countPL : Int),
      (lights_editor.activeFrom limit countPL entries).filter (fun l => !l.isPoint)
        = ((entries.filter fun e => e.2).map fun e => e.1).filter (fun l => !l.isPoint) := by
  intro entries
  induction entries with
  | nil => intro _; rfl
  | cons e rest ih =>
    intro countPL
    obtain ⟨light, enabled⟩ := e
    cases enabled
    · simp [lights_editor.activeFrom, ih]
    · by_cases hp : light.mType = lightsource_type.point
      · have hip : light.isPoint = true := by simp [lightsource.isPoint, hp]
        by_cases hl : 0 ≤ limit
        · by_cases hc : countPL + 1 > limit
          · simp [lights_editor.activeFrom, hp, hl, hc, ih, hip]
          · simp [lights_editor.activeFrom, hp, hl, hc, ih, hip]
        · simp [lights_editor.activeFrom, hp, hl, ih, hip]
      · have hip : light.isPoint = false := by simp [lightsource.isPoint, hp]
        simp [lights_editor.activeFrom, hp, ih, hip]

theorem activeFrom_points (limit : Int) (hl : 0 ≤ limit) :
    ∀ (entries : List (lightsource × Bool)) (countPL : Int),
      (lights_editor.activeFrom limit countPL entries).filter (fun l => l.isPoint)
        = (((entries.filter fun e => e.2).map fun e => e.1).filter (fun l => l.isPoint)).take
            (limit - countPL).toNat := by
  intro entries
  induction entries with
  | nil => intro _; simp [lights_editor.activeFrom]
  | cons e rest ih =>
    intro countPL
    obtain ⟨light, enabled⟩ := e
    cases enabled
    · simp [lights_editor.activeFrom, ih]
    · by_cases hp : light.mType = lightsource_type.point
      · have hip : light.isPoint = true := by simp [lightsource.isPoint, hp]
        by_cases hc : countPL + 1 > limit
        · have h0 : (limit - countPL).toNat = 0 := by omega
          have h1 : (limit - (countPL + 1)).toNat = 0 := by omega
          simp [lights_editor.activeFrom, hp, hl, hc, ih, hip, h0, h1]
        · have h1 : (limit - countPL).toNat = (limit - (countPL + 1)).toNat + 1 := by omega
          simp [lights_editor.activeFrom, hp, hl, hc, ih, hip, h1]
      · have hip : light.isPoint = false := by simp [lightsource.isPoint, hp]
        simp [lights_editor.activeFrom, hp, ih, hip]

theorem activeFrom_sublist (limit : Int) :
    ∀ (entries : List (lightsource × Bool)) (countPL : Int),
      (lights_editor.activeFrom limit countPL entries).Sublist
        ((entries.filter fun e => e.2).map fun e => e.1) := by
  intro entries
  induction entries with
  | nil => intro _; simp [lights_editor.activeFrom]
  | cons e rest ih =>
    intro countPL
    obtain ⟨light, enabled⟩ := e
    cases enabled
    · simpa [lights_editor.activeFrom] using ih countPL
    · simp only [lights_editor.activeFrom, if_true, List.filter_cons, List.map_cons]
      split
      · split
        · exact (ih _).cons _
        · exact (ih _).cons₂ _
      · exact (ih _).cons₂ _

theorem add_all (ls : List lightsource) :
    ∀ s : lights_editor,
      (ls.foldl lights_editor.add s).lights = s.lights ++ ls.map fun l => (l, true) := by
  induction ls with
  | nil => intro s; simp
  | cons l ls ih => intro s; simp [ih, lights_editor.add]


/-- C25: for every editor state (any lights, any enabled flags) and every
limit `L`, `get_active_lights(L)` returns a sublist of the enabled lights in
registration order; the lights that are not point lights are exactly the
enabled ones; for `L < 0` the result is all enabled lights; for `L >= 0` the
point lights of the result are exactly the first `L` enabled point lights, so
there are `min(L, number of enabled point lights)` of them.  Lights registered
with `add` are appended in call order, enabled. -/
theorem get_active_lights_spec (s : lights_editor) (limit : Int) :
    (s.get_active_lights limit).Sublist s.enabledLights
    ∧ (s.get_active_lights limit).filter (fun l => !l.isPoint)
        = s.enabledLights.filter (fun l => !l.isPoint)
    ∧ (limit < 0 → s.get_active_lights limit = s.enabledLights)
    ∧ (0 ≤ limit →
        (s.get_active_lights limit).filter (fun l => l.isPoint)
            = (s.enabledLights.filter (fun l => l.isPoint)).take limit.toNat
        ∧ ((s.get_active_lights limit).filter (fun l => l.isPoint)).length
            = min limit.toNat (s.enabledLights.filter (fun l => l.isPoint)).length)
    ∧ (∀ ls : List lightsource,
        (ls.foldl lights_editor.add {}).lights = ls.map fun l => (l, true))
    ∧ (∀ (get_lights : List lightsource),
        helpers.get_active_lightsources (some s) get_lights limit = s.get_active_lights limit) := by
  refine ⟨activeFrom_sublist limit s.lights 0, activeFrom_others limit s.lights 0, ?_, ?_, ?_,
    fun _ => rfl⟩
  · intro hneg
    exact activeFrom_negative limit hneg s.lights 0
  · intro hl
    have hp := activeFrom_points limit hl s.lights 0
    simp only [sub_zero] at hp
    refine ⟨hp, ?_⟩
    unfold lights_editor.get_active_lights lights_editor.enabledLights
    rw [hp, List.length_take]
  · intro ls
    simpa using add_all ls {}

end FloatingIslands
